import Mathlib

/-!
# Pair-verify client controller (`pair/verify_client_controller.go`)

A shallow embedding of `VerifyClientController`: the dispatcher `Handle`, the
round handlers `handlePairVerifyRespond` and `handlePairVerifyFinishRespond`,
and `InitialKeyVerifyRequest`.

Conventions of the embedding.

* Bytes are natural numbers, byte slices and Go strings are lists of bytes;
  a fixed-size array `[n]byte` is a list of length exactly `n` (`Arr n`).
* The controller is mutated in place by the Go code; here every operation
  returns the controller it leaves behind.
* Everything the file calls but does not define (the `hap` crypto helpers, the
  identity store, the TLV8 wire codec, the TLV tag constants) is a field of
  `Env`, so every theorem holds for every implementation of them.
* Calls are effects: each operation returns the ordered `trace` of the calls it
  made, with their arguments.
* A Go run-time panic (slice bounds out of range) is the outcome `panicked`.
-/

namespace Pair

/-- A byte slice (also a Go string, which is a byte sequence). -/
abbrev Bytes := List Nat

/-- A fixed-size byte array `[n]byte`. -/
abbrev Arr (n : Nat) := { l : List Nat // l.length = n }

/-- The zero value of `[n]byte`. -/
def Arr.zero (n : Nat) : Arr n := ⟨List.replicate n 0, by simp⟩

/-- Go `var a [n]byte; copy(a[:], src)`: the first `n` bytes of `src`, the rest
of the array keeping its zero value. -/
def copyArr (n : Nat) (src : Bytes) : Arr n :=
  ⟨(src ++ List.replicate n 0).take n, by simp⟩

/-- Modelled from the spec: the message container of the Message Codec, "the
ordered key-value wire format"; the `Container` interface and its TLV8
implementation are not part of this file. Items are kept in insertion order. -/
structure Container where
  items : List (Nat × Bytes)
deriving DecidableEq, Repr

/-- Modelled from the spec: `NewTLV8Container()`, the empty container. -/
def NewTLV8Container : Container := ⟨[]⟩

/-- The bytes stored under `tag`, in insertion order. -/
def getItems : List (Nat × Bytes) → Nat → Bytes
  | [], _ => []
  | (t, v) :: rest, tag => if t = tag then v ++ getItems rest tag else getItems rest tag

/-- Modelled from the spec: `container.getBytes(tag)`; empty when the field is
absent. -/
def Container.GetBytes (c : Container) (tag : Nat) : Bytes := getItems c.items tag

/-- Modelled from the spec: `container.getString(tag)`; a Go string is its
bytes. -/
def Container.GetString (c : Container) (tag : Nat) : Bytes := c.GetBytes tag

/-- Modelled from the spec: `container.getByte(tag)`; the first byte of the
field, `0` when the field is absent or empty. -/
def Container.GetByte (c : Container) (tag : Nat) : Nat := (c.GetBytes tag).headD 0

/-- Modelled from the spec: `container.setBytes(tag, value)`. -/
def Container.SetBytes (c : Container) (tag : Nat) (value : Bytes) : Container :=
  ⟨c.items ++ [(tag, value)]⟩

/-- Modelled from the spec: `container.setByte(tag, value)`. -/
def Container.SetByte (c : Container) (tag : Nat) (b : Nat) : Container :=
  c.SetBytes tag [b]

/-- Modelled from the spec: `container.setString(tag, value)`. -/
def Container.SetString (c : Container) (tag : Nat) (s : Bytes) : Container :=
  c.SetBytes tag s

/-- Modelled from the spec: "Start-Request(1)". -/
def VerifyStartRequest : Nat := 1
/-- Modelled from the spec: "Start-Respond(2)". -/
def VerifyStartRespond : Nat := 2
/-- Modelled from the spec: "Finish-Request(3)". -/
def VerifyFinishRequest : Nat := 3
/-- Modelled from the spec: "Finish-Respond(4)". -/
def VerifyFinishRespond : Nat := 4

/-- What the file uses without defining: the TLV tag constants of package
`pair`, the crypto helpers of package `hap`, the identity store and the TLV8
wire codec. An error value returned by a collaborator is an uninterpreted
number. -/
structure Env where
  TLVType_Method : Nat
  TLVType_SequenceNumber : Nat
  TLVType_PublicKey : Nat
  TLVType_EncryptedData : Nat
  TLVType_Username : Nat
  TLVType_Ed25519Signature : Nat
  TLVStatus_NoError : Nat
  /-- ECDH: secret key, other public key. -/
  curve25519 : Arr 32 → Arr 32 → Arr 32
  /-- HKDF-style derive: input key, salt, info. -/
  hkdf : Arr 32 → String → String → Arr 32
  /-- The call `hap.Chacha20DecryptAndPoly1305Verify(key, nonce, message, mac, add)`. -/
  Chacha20DecryptAndPoly1305Verify : Bytes → String → Bytes → Arr 16 → Bytes → Except Nat Bytes
  /-- The call `hap.Chacha20EncryptAndPoly1305Seal(key, nonce, message, add)`; the
  third result, an error, is discarded by the caller. -/
  Chacha20EncryptAndPoly1305Seal : Bytes → String → Bytes → Bytes → Bytes × Arr 16
  /-- The call `hap.ValidateED25519Signature(key, data, signature)`. -/
  ValidateED25519Signature : Bytes → Bytes → Bytes → Bool
  /-- The call `hap.ED25519Signature(key, data)`. -/
  ED25519Signature : Bytes → Bytes → Except Nat Bytes
  /-- The call `hap.ED25519GenerateKey(username)`: public key, secret key; the
  third result, an error, is discarded by the caller. -/
  ED25519GenerateKey : Bytes → Bytes × Bytes
  /-- The call `context.PublicKeyForAccessory(bridge)`. -/
  PublicKeyForAccessory : Nat → Bytes
  /-- The call `NewTLV8ContainerFromReader(bytes.NewBuffer(b))`. -/
  NewTLV8ContainerFromReader : Bytes → Except Nat Container
  /-- The call `container.BytesBuffer()`, the serialization. -/
  BytesBuffer : Container → Bytes

/-- The fields of `VerifySession` the controller reads. -/
structure VerifySession where
  otherPublicKey : Arr 32
  publicKey : Arr 32
  secretKey : Arr 32
  sharedKey : Arr 32
  encryptionKey : Arr 32
deriving DecidableEq

/-- Modelled from the spec: `NewVerifySession()`, "created fresh at controller
construction" with a freshly generated ephemeral keypair (here given), nothing
else established. -/
def NewVerifySession (publicKey secretKey : Arr 32) : VerifySession :=
  ⟨Arr.zero 32, publicKey, secretKey, Arr.zero 32, Arr.zero 32⟩

/-- Modelled from the spec: `VerifySession.GenerateSharedKeyWithOtherPublicKey`,
"computes the shared secret via ECDH using the controller's private ephemeral
key and the accessory's public key"; the peer key is recorded. -/
def VerifySession.GenerateSharedKeyWithOtherPublicKey (env : Env) (s : VerifySession)
    (otherPublicKey : Arr 32) : VerifySession :=
  ⟨otherPublicKey, s.publicKey, s.secretKey, env.curve25519 s.secretKey otherPublicKey,
    s.encryptionKey⟩

/-- Modelled from the spec: `VerifySession.SetupEncryptionKey`, "derives the
session encryption key" from the shared secret "with fixed domain-separation
labels". -/
def VerifySession.SetupEncryptionKey (env : Env) (s : VerifySession) (salt info : String) :
    VerifySession :=
  ⟨s.otherPublicKey, s.publicKey, s.secretKey, s.sharedKey, env.hkdf s.sharedKey salt info⟩

/-- The struct `VerifyClientController`; `context` is the identity store of `Env`. -/
structure VerifyClientController where
  bridge : Nat
  session : VerifySession
  username : Bytes
  LTPK : Bytes
  LTSK : Bytes
deriving DecidableEq

/-- The constructor `NewVerifyClientController` (lines 21-34). `ephemeral` is the
keypair (public, secret) that `NewVerifySession()` generates. -/
def NewVerifyClientController (env : Env) (bridge : Nat) (username : Bytes)
    (ephemeral : Arr 32 × Arr 32) : VerifyClientController :=
  let keys := env.ED25519GenerateKey username
  ⟨bridge, NewVerifySession ephemeral.1 ephemeral.2, username, keys.1, keys.2⟩

/-- A Go `error` value: made here by `hap.NewErrorf(format, args...)`, or
returned by a collaborator and passed on unchanged. -/
inductive Error where
  | newErrorf (format : String) (args : List Nat)
  | fromDecrypt (e : Nat)
  | fromDecode (e : Nat)
  | fromSign (e : Nat)
deriving DecidableEq, Repr

/-- A call made while handling a message, with its arguments. -/
inductive Event where
  | handlePairVerifyRespond
  | handlePairVerifyFinishRespond
  | generateSharedKey (otherPublicKey : Bytes)
  | setupEncryptionKey (salt info : String)
  | println (label : String) (value : Bytes)
  | decryptAndVerify (key : Bytes) (nonce : String) (message mac : Bytes)
  | newTLV8ContainerFromReader (plaintext : Bytes)
  | publicKeyForAccessory (bridge : Nat)
  | validateSignature (ltpk material signature : Bytes)
  | sign (ltsk material : Bytes)
  | encryptAndSeal (key : Bytes) (nonce : String) (plaintext : Bytes)
  | bytesBuffer (c : Container)
deriving DecidableEq, Repr

/-- How a call ends: it returns `(Container, error)`, either of which may be
`nil`, or the goroutine panics. -/
inductive Outcome where
  | returned (cont_out : Option Container) (err : Option Error)
  | panicked
deriving DecidableEq, Repr

/-- A finished call: the controller left behind, the calls made, the outcome. -/
structure Result where
  controller : VerifyClientController
  trace : List Event
  outcome : Outcome
deriving DecidableEq

/-- Lines 125-128: the material whose signature is validated,
`otherPublicKey ++ username ++ publicKey`. -/
def verifyMaterial (s : VerifySession) (username : Bytes) : Bytes :=
  (([] ++ s.otherPublicKey.val) ++ username) ++ s.publicKey.val

/-- Lines 143-146: the material the client signs,
`publicKey ++ c.username ++ otherPublicKey`. -/
def signMaterial (s : VerifySession) (username : Bytes) : Bytes :=
  (([] ++ s.publicKey.val) ++ username) ++ s.otherPublicKey.val

/-- Lines 136-159 of `handlePairVerifyRespond`: the finish-request built once the
accessory's signature has been validated. `t` is the trace so far. -/
def buildFinishRequest (env : Env) (c : VerifyClientController) (t : List Event) : Result :=
  let cont_out := NewTLV8Container
  let cont_out := cont_out.SetByte env.TLVType_Method 0
  let cont_out := cont_out.SetByte env.TLVType_SequenceNumber VerifyFinishRequest
  let tlv_encrypt := NewTLV8Container
  let tlv_encrypt := tlv_encrypt.SetString env.TLVType_Username c.username
  let material := signMaterial c.session c.username
  let t := t ++ [Event.sign c.LTSK material]
  match env.ED25519Signature c.LTSK material with
  | .error e => ⟨c, t, .returned none (some (.fromSign e))⟩
  | .ok signature =>
    let tlv_encrypt := tlv_encrypt.SetBytes env.TLVType_Ed25519Signature signature
    let plaintext := env.BytesBuffer tlv_encrypt
    let sealed := env.Chacha20EncryptAndPoly1305Seal c.session.encryptionKey.val "PV-Msg03"
      plaintext []
    let t := t ++ [Event.bytesBuffer tlv_encrypt,
      Event.encryptAndSeal c.session.encryptionKey.val "PV-Msg03" plaintext]
    let cont_out := cont_out.SetBytes env.TLVType_EncryptedData (sealed.1 ++ sealed.2.val)
    ⟨c, t, .returned (some cont_out) none⟩

/-- Lines 112-134 of `handlePairVerifyRespond`: decoding the opened payload and
validating the accessory's signature. `t` is the trace so far. -/
def checkDecrypted (env : Env) (c : VerifyClientController) (t : List Event)
    (decrypted : Bytes) : Result :=
  let t := t ++ [Event.newTLV8ContainerFromReader decrypted]
  match env.NewTLV8ContainerFromReader decrypted with
  | .error e => ⟨c, t, .returned none (some (.fromDecode e))⟩
  | .ok tlv_decrypted =>
    let username := tlv_decrypted.GetString env.TLVType_Username
    let signature := tlv_decrypted.GetBytes env.TLVType_Ed25519Signature
    let t := t ++ [Event.println "    Username:" username,
      Event.println "   Signature:" signature]
    let material := verifyMaterial c.session username
    let LTPK := env.PublicKeyForAccessory c.bridge
    let t := t ++ [Event.publicKeyForAccessory c.bridge,
      Event.validateSignature LTPK material signature]
    if env.ValidateED25519Signature LTPK material signature = false then
      ⟨c, t, .returned none (some (.newErrorf "Could not validate signature" []))⟩
    else
      buildFinishRequest env c t

/-- The method `handlePairVerifyRespond` (lines 84-160). -/
def handlePairVerifyRespond (env : Env) (c : VerifyClientController) (cont_in : Container) :
    Result :=
  let serverPublicKey := cont_in.GetBytes env.TLVType_PublicKey
  if serverPublicKey.length ≠ 32 then
    ⟨c, [], .returned none
      (some (.newErrorf "Invalid server public key size %d" [serverPublicKey.length]))⟩
  else
    let otherPublicKey := copyArr 32 serverPublicKey
    let session := c.session.GenerateSharedKeyWithOtherPublicKey env otherPublicKey
    let session := session.SetupEncryptionKey env "Pair-Verify-Encrypt-Salt"
      "Pair-Verify-Encrypt-Info"
    let c : VerifyClientController := ⟨c.bridge, session, c.username, c.LTPK, c.LTSK⟩
    let t := [Event.generateSharedKey otherPublicKey.val,
      Event.setupEncryptionKey "Pair-Verify-Encrypt-Salt" "Pair-Verify-Encrypt-Info",
      Event.println "Client" [],
      Event.println "->   B:" serverPublicKey,
      Event.println "     S:" c.session.secretKey.val,
      Event.println "Shared:" c.session.sharedKey.val,
      Event.println "     K:" c.session.encryptionKey.val]
    let data := cont_in.GetBytes env.TLVType_EncryptedData
    if data.length < 16 then
      ⟨c, t, .panicked⟩
    else
      let message := data.take (data.length - 16)
      let mac := copyArr 16 (data.drop message.length)
      let t := t ++ [Event.decryptAndVerify c.session.encryptionKey.val "PV-Msg02" message
        mac.val]
      match env.Chacha20DecryptAndPoly1305Verify c.session.encryptionKey.val "PV-Msg02"
          message mac [] with
      | .error e => ⟨c, t, .returned none (some (.fromDecrypt e))⟩
      | .ok decrypted => checkDecrypted env c t decrypted

/-- The method `handlePairVerifyFinishRespond` (lines 164-171). -/
def handlePairVerifyFinishRespond (env : Env) (c : VerifyClientController)
    (cont_in : Container) : Result :=
  let err_code := cont_in.GetByte env.TLVStatus_NoError
  if err_code ≠ 0 then
    ⟨c, [Event.println "Unexpected error %d" [err_code]], .returned none none⟩
  else
    ⟨c, [], .returned none none⟩

/-- The method `Handle` (lines 36-59). The trace starts with the round handler
that was called, if any. -/
def Handle (env : Env) (c : VerifyClientController) (cont_in : Container) : Result :=
  let method := cont_in.GetByte env.TLVType_Method
  if method ≠ 0 then
    ⟨c, [], .returned none (some (.newErrorf "Cannot handle auth method %b" [method]))⟩
  else
    let seq := cont_in.GetByte env.TLVType_SequenceNumber
    if seq = VerifyStartRespond then
      let r := handlePairVerifyRespond env c cont_in
      ⟨r.controller, Event.handlePairVerifyRespond :: r.trace, r.outcome⟩
    else if seq = VerifyFinishRespond then
      let r := handlePairVerifyFinishRespond env c cont_in
      ⟨r.controller, Event.handlePairVerifyFinishRespond :: r.trace, r.outcome⟩
    else
      ⟨c, [], .returned none (some (.newErrorf "Cannot handle sequence number %d" [seq]))⟩

/-- The method `InitialKeyVerifyRequest` (lines 63-72): the serialized
start-request, and the calls made. -/
def InitialKeyVerifyRequest (env : Env) (c : VerifyClientController) :
    VerifyClientController × List Event × Bytes :=
  let cont_out := NewTLV8Container
  let cont_out := cont_out.SetByte env.TLVType_Method 0
  let cont_out := cont_out.SetByte env.TLVType_SequenceNumber VerifyStartRequest
  let cont_out := cont_out.SetBytes env.TLVType_PublicKey c.session.publicKey.val
  (c, [Event.println "<-     A:" (cont_out.GetBytes env.TLVType_PublicKey),
    Event.bytesBuffer cont_out], env.BytesBuffer cont_out)

/-! ## Notions used to state the properties -/

/-- The controller as lines 90-93 leave it: peer key recorded, shared secret and
session encryption key derived. -/
def afterKeyExchange (env : Env) (c : VerifyClientController) (cont_in : Container) :
    VerifyClientController :=
  ⟨c.bridge,
    (c.session.GenerateSharedKeyWithOtherPublicKey env
      (copyArr 32 (cont_in.GetBytes env.TLVType_PublicKey))).SetupEncryptionKey env
      "Pair-Verify-Encrypt-Salt" "Pair-Verify-Encrypt-Info",
    c.username, c.LTPK, c.LTSK⟩

/-- The ciphertext part of an encrypted payload of at least 16 bytes (line 103). -/
def ciphertextOf (data : Bytes) : Bytes := data.take (data.length - 16)

/-- The tag part of an encrypted payload of at least 16 bytes (lines 104-105). -/
def macOf (data : Bytes) : Arr 16 := copyArr 16 (data.drop (ciphertextOf data).length)

/-- The AEAD open of line 107, on the encrypted-data field of `cont_in`. -/
def openPayload (env : Env) (c : VerifyClientController) (cont_in : Container) :
    Except Nat Bytes :=
  env.Chacha20DecryptAndPoly1305Verify (afterKeyExchange env c cont_in).session.encryptionKey.val
    "PV-Msg02" (ciphertextOf (cont_in.GetBytes env.TLVType_EncryptedData))
    (macOf (cont_in.GetBytes env.TLVType_EncryptedData)) []

/-- The calls of lines 92-99 and 107, in order: what `handlePairVerifyRespond`
has done once the AEAD open returns. -/
def openTrace (env : Env) (c : VerifyClientController) (cont_in : Container) : List Event :=
  [Event.generateSharedKey (copyArr 32 (cont_in.GetBytes env.TLVType_PublicKey)).val,
    Event.setupEncryptionKey "Pair-Verify-Encrypt-Salt" "Pair-Verify-Encrypt-Info",
    Event.println "Client" [],
    Event.println "->   B:" (cont_in.GetBytes env.TLVType_PublicKey),
    Event.println "     S:" (afterKeyExchange env c cont_in).session.secretKey.val,
    Event.println "Shared:" (afterKeyExchange env c cont_in).session.sharedKey.val,
    Event.println "     K:" (afterKeyExchange env c cont_in).session.encryptionKey.val,
    Event.decryptAndVerify (afterKeyExchange env c cont_in).session.encryptionKey.val "PV-Msg02"
      (ciphertextOf (cont_in.GetBytes env.TLVType_EncryptedData))
      (macOf (cont_in.GetBytes env.TLVType_EncryptedData)).val]

/-- The calls of lines 113-132, in order: decoding the plaintext, the two debug
prints, the identity-store lookup and the signature validation. -/
def checkTrace (env : Env) (c : VerifyClientController) (decrypted : Bytes)
    (tlv : Container) : List Event :=
  [Event.newTLV8ContainerFromReader decrypted,
    Event.println "    Username:" (tlv.GetString env.TLVType_Username),
    Event.println "   Signature:" (tlv.GetBytes env.TLVType_Ed25519Signature),
    Event.publicKeyForAccessory c.bridge,
    Event.validateSignature (env.PublicKeyForAccessory c.bridge)
      (verifyMaterial c.session (tlv.GetString env.TLVType_Username))
      (tlv.GetBytes env.TLVType_Ed25519Signature)]

/-- The nested container of the finish-request: client identifier, signature. -/
def finishPlain (env : Env) (c : VerifyClientController) (signature : Bytes) : Container :=
  ⟨[(env.TLVType_Username, c.username), (env.TLVType_Ed25519Signature, signature)]⟩

/-- The AEAD seal of line 155, for the signature `signature`. -/
def sealFinish (env : Env) (c : VerifyClientController) (signature : Bytes) :
    Bytes × Arr 16 :=
  env.Chacha20EncryptAndPoly1305Seal c.session.encryptionKey.val "PV-Msg03"
    (env.BytesBuffer (finishPlain env c signature)) []

/-- The finish-request of lines 136-157, for the signature `signature`. -/
def finishRequest (env : Env) (c : VerifyClientController) (signature : Bytes) : Container :=
  ⟨[(env.TLVType_Method, [0]), (env.TLVType_SequenceNumber, [VerifyFinishRequest]),
    (env.TLVType_EncryptedData,
      (sealFinish env c signature).1 ++ (sealFinish env c signature).2.val)]⟩

/-- The arguments of the signature validations in a trace. -/
def validateCalls : List Event → List (Bytes × Bytes × Bytes)
  | [] => []
  | Event.validateSignature k m s :: rest => (k, m, s) :: validateCalls rest
  | _ :: rest => validateCalls rest

/-- The event is a signing with the client's long-term key. -/
def Event.isSign : Event → Bool
  | .sign _ _ => true
  | _ => false

/-- The event is an AEAD seal. -/
def Event.isSeal : Event → Bool
  | .encryptAndSeal _ _ _ => true
  | _ => false

/-- The event is a decoding of a nested container. -/
def Event.isDecode : Event → Bool
  | .newTLV8ContainerFromReader _ => true
  | _ => false

/-- The event is a signature validation. -/
def Event.isValidate : Event → Bool
  | .validateSignature _ _ _ => true
  | _ => false

/-- The event is an identity-store lookup. -/
def Event.isLookup : Event → Bool
  | .publicKeyForAccessory _ => true
  | _ => false

/-- The event is an AEAD open. -/
def Event.isOpen : Event → Bool
  | .decryptAndVerify _ _ _ _ => true
  | _ => false

/-- The ciphertext and tag given to the AEAD opens in a trace. -/
def openCalls : List Event → List (Bytes × Bytes)
  | [] => []
  | Event.decryptAndVerify _ _ message mac :: rest => (message, mac) :: openCalls rest
  | _ :: rest => openCalls rest

/-- The key and nonce label of the AEAD opens and seals in a trace. -/
def aeadCalls : List Event → List (Bytes × String)
  | [] => []
  | Event.decryptAndVerify key nonce _ _ :: rest => (key, nonce) :: aeadCalls rest
  | Event.encryptAndSeal key nonce _ :: rest => (key, nonce) :: aeadCalls rest
  | _ :: rest => aeadCalls rest

/-- The calls of lines 148-155 when the signing succeeds with `signature`. -/
def finishTrace (env : Env) (c : VerifyClientController) (signature : Bytes) : List Event :=
  [Event.sign c.LTSK (signMaterial c.session c.username),
    Event.bytesBuffer (finishPlain env c signature),
    Event.encryptAndSeal c.session.encryptionKey.val "PV-Msg03"
      (env.BytesBuffer (finishPlain env c signature))]

/-- What no `Handle` call changes and every `Handle` call may read: the identity
fields and the ephemeral keypair. -/
def fixedPart (c : VerifyClientController) : Nat × Bytes × Bytes × Bytes × Arr 32 × Arr 32 :=
  (c.bridge, c.username, c.LTPK, c.LTSK, c.session.publicKey, c.session.secretKey)

/-- The controller left behind by a sequence of `Handle` calls, whatever their
outcomes. -/
def handleAll (env : Env) (c : VerifyClientController) : List Container → VerifyClientController
  | [] => c
  | m :: ms => handleAll env (Handle env c m).controller ms

/-! ## A concrete environment

Small stand-ins for the collaborators, used to run the controller on concrete
messages. The TLV tags are the HomeKit assignments. -/

namespace Fixture

/-- Toy authentication tag: the length of the message, zero-padded. -/
def tagOf (message : Bytes) : Arr 16 := copyArr 16 [message.length % 256]

/-- Toy signature: one checksum byte over key and data. -/
def checksum (key data : Bytes) : Bytes := [(key.sum + data.sum) % 256]

/-- Toy TLV8 decoding: items `tag, length, value`. -/
def decodeItems : Nat → Bytes → Except Nat (List (Nat × Bytes))
  | _, [] => .ok []
  | 0, _ :: _ => .error 1
  | _ + 1, [_] => .error 1
  | fuel + 1, tag :: len :: rest =>
    if rest.length < len then .error 1
    else
      match decodeItems fuel (rest.drop len) with
      | .ok items => .ok ((tag, rest.take len) :: items)
      | .error e => .error e

/-- Toy TLV8 encoding: items `tag, length, value`. -/
def encodeItems : List (Nat × Bytes) → Bytes
  | [] => []
  | (tag, value) :: rest => tag :: value.length :: value ++ encodeItems rest

/-- The concrete environment. -/
def env : Env where
  TLVType_Method := 0
  TLVType_SequenceNumber := 6
  TLVType_PublicKey := 3
  TLVType_EncryptedData := 5
  TLVType_Username := 1
  TLVType_Ed25519Signature := 10
  TLVStatus_NoError := 0
  curve25519 := fun secret other =>
    copyArr 32 (List.zipWith (fun x y => (x + y) % 256) secret.val other.val)
  hkdf := fun key _ _ => copyArr 32 key.val.reverse
  Chacha20DecryptAndPoly1305Verify := fun _ _ message mac _ =>
    if mac = tagOf message then .ok message else .error 7
  Chacha20EncryptAndPoly1305Seal := fun _ _ message _ => (message, tagOf message)
  ValidateED25519Signature := fun key data signature => signature == checksum key data
  ED25519Signature := fun key data =>
    if key.length = 2 then .ok (checksum key data) else .error 9
  ED25519GenerateKey := fun username => ([username.length, 1], [username.length, 1])
  PublicKeyForAccessory := fun bridge => [bridge, 1]
  NewTLV8ContainerFromReader := fun b =>
    match decodeItems b.length b with
    | .ok items => .ok ⟨items⟩
    | .error e => .error e
  BytesBuffer := fun c => encodeItems c.items

/-- The environment `env` with the finish-response status read under tag 7. -/
def envStatus7 : Env := { env with TLVStatus_NoError := 7 }

/-- The controller's ephemeral public key `A`. -/
def keyA : Arr 32 := ⟨List.replicate 32 1, by decide⟩

/-- The controller's ephemeral secret key. -/
def secretA : Arr 32 := ⟨List.replicate 32 2, by decide⟩

/-- The accessory's ephemeral public key `B`. -/
def keyB : Bytes := List.replicate 32 3

/-- A freshly constructed controller for bridge 5 and user "c" (byte 99). -/
def controller : VerifyClientController :=
  NewVerifyClientController env 5 [99] (keyA, secretA)

/-- The nested container of a start-response: identifier `u`, signature `sig`. -/
def nested (u sig : Bytes) : Bytes := encodeItems [(1, u), (10, sig)]

/-- A start-response carrying `pk` and the payload `plain` followed by `tag`. -/
def startResponse (pk plain tag : Bytes) : Container :=
  ⟨[(6, [2]), (3, pk), (5, plain ++ tag)]⟩

/-- The accessory's signature over `B ++ u ++ A` for identifier `u`. -/
def accessorySig (u : Bytes) : Bytes := checksum [5, 1] (keyB ++ u ++ keyA.val)

/-- A start-response that passes every round-1 check; the accessory identifier
is "a" (byte 97). -/
def goodStart : Container :=
  startResponse keyB (nested [97] (accessorySig [97])) (tagOf (nested [97] (accessorySig [97]))).val

/-- A start-response whose signature does not validate. -/
def badSigStart : Container :=
  startResponse keyB (nested [97] [0]) (tagOf (nested [97] [0])).val

/-- A start-response whose tag does not authenticate. -/
def badTagStart : Container :=
  startResponse keyB (nested [97] (accessorySig [97])) (List.replicate 16 255)

/-- The session of `controller` after the key exchange with `keyB`. -/
def session : VerifySession := (afterKeyExchange env controller goodStart).session

/-- A start-response whose public key has 31 bytes. -/
def shortKeyStart : Container :=
  startResponse (List.replicate 31 3) (nested [97] (accessorySig [97]))
    (tagOf (nested [97] (accessorySig [97]))).val

/-- A container with sequence number `VerifyStartRespond` and method 1. -/
def method1 : Container := ⟨[(0, [1]), (6, [2])]⟩

/-- A container with sequence number `VerifyFinishRequest`. -/
def finishRequestEcho : Container := ⟨[(0, [0]), (6, [3])]⟩

/-- A start-response with a 32-byte key and no encrypted-data field. -/
def noDataStart : Container := ⟨[(6, [2]), (3, keyB)]⟩

/-- A start-response with a 32-byte key and 15 bytes of encrypted data. -/
def shortDataStart : Container := ⟨[(6, [2]), (3, keyB), (5, List.replicate 15 0)]⟩

/-- A start-response whose payload opens to the single byte 1, which is no TLV8
item. -/
def undecodableStart : Container := startResponse keyB [1] (tagOf [1]).val

/-- A start-response whose nested container holds the identifier "a" and no
signature. -/
def noSigStart : Container :=
  startResponse keyB (encodeItems [(1, [97])]) (tagOf (encodeItems [(1, [97])])).val

/-- A start-response whose nested container holds no identifier, and the
accessory's signature over `B ++ A`. -/
def noNameStart : Container :=
  startResponse keyB (encodeItems [(10, accessorySig [])])
    (tagOf (encodeItems [(10, accessorySig [])])).val

/-- Another accessory ephemeral public key. -/
def keyB2 : Bytes := List.replicate 32 4

/-- A start-response that passes every round-1 check, with the key `keyB2`. -/
def goodStart2 : Container :=
  startResponse keyB2 (nested [97] (checksum [5, 1] (keyB2 ++ [97] ++ keyA.val)))
    (tagOf (nested [97] (checksum [5, 1] (keyB2 ++ [97] ++ keyA.val)))).val

/-- A finish-response with method 0 and error code 0. -/
def okFinish : Container := ⟨[(0, [0]), (6, [4]), (7, [0])]⟩

/-- A finish-response carrying error code 2 under tag 7. -/
def rejectedFinish : Container := ⟨[(6, [4]), (7, [2])]⟩

/-- A finish-response with no error code. -/
def plainFinish : Container := ⟨[(6, [4])]⟩

end Fixture

/-! ## Basic facts -/

theorem copyArr_val_of_length (n : Nat) (src : Bytes) (h : src.length = n) :
    (copyArr n src).val = src := by
  simp [copyArr, List.take_append_eq_append_take, h]

/-- With method absent or 0 and sequence number `VerifyStartRespond`, `Handle`
is the round-1 handler. -/
theorem Handle_startRespond (env : Env) (c : VerifyClientController) (cont_in : Container)
    (hm : cont_in.GetByte env.TLVType_Method = 0)
    (hs : cont_in.GetByte env.TLVType_SequenceNumber = VerifyStartRespond) :
    Handle env c cont_in =
      ⟨(handlePairVerifyRespond env c cont_in).controller,
        Event.handlePairVerifyRespond :: (handlePairVerifyRespond env c cont_in).trace,
        (handlePairVerifyRespond env c cont_in).outcome⟩ := by
  simp [Handle, hm, hs]

/-- With method absent or 0 and sequence number `VerifyFinishRespond`, `Handle`
is the round-2 handler. -/
theorem Handle_finishRespond (env : Env) (c : VerifyClientController) (cont_in : Container)
    (hm : cont_in.GetByte env.TLVType_Method = 0)
    (hs : cont_in.GetByte env.TLVType_SequenceNumber = VerifyFinishRespond) :
    Handle env c cont_in =
      ⟨(handlePairVerifyFinishRespond env c cont_in).controller,
        Event.handlePairVerifyFinishRespond ::
          (handlePairVerifyFinishRespond env c cont_in).trace,
        (handlePairVerifyFinishRespond env c cont_in).outcome⟩ := by
  simp [Handle, hm, hs, VerifyFinishRespond, VerifyStartRespond]

/-- A 32-byte key and a payload that opens: the round-1 handler goes on to
decode the plaintext. -/
theorem handlePairVerifyRespond_opened (env : Env) (c : VerifyClientController)
    (cont_in : Container) (decrypted : Bytes)
    (hk : (cont_in.GetBytes env.TLVType_PublicKey).length = 32)
    (hd : 16 ≤ (cont_in.GetBytes env.TLVType_EncryptedData).length)
    (hopen : openPayload env c cont_in = .ok decrypted) :
    handlePairVerifyRespond env c cont_in =
      checkDecrypted env (afterKeyExchange env c cont_in) (openTrace env c cont_in)
        decrypted := by
  have hd2 : ¬ (cont_in.GetBytes env.TLVType_EncryptedData).length < 16 := by omega
  simp only [openPayload, afterKeyExchange, ciphertextOf, macOf] at hopen
  simp only [handlePairVerifyRespond, hk, hd2, ne_eq, not_true_eq_false, if_false]
  rw [hopen]
  rfl

/-- A 32-byte key and a payload that does not open: the round-1 handler returns
the error of the AEAD open. -/
theorem handlePairVerifyRespond_not_opened (env : Env) (c : VerifyClientController)
    (cont_in : Container) (e : Nat)
    (hk : (cont_in.GetBytes env.TLVType_PublicKey).length = 32)
    (hd : 16 ≤ (cont_in.GetBytes env.TLVType_EncryptedData).length)
    (hopen : openPayload env c cont_in = .error e) :
    handlePairVerifyRespond env c cont_in =
      ⟨afterKeyExchange env c cont_in, openTrace env c cont_in,
        .returned none (some (.fromDecrypt e))⟩ := by
  have hd2 : ¬ (cont_in.GetBytes env.TLVType_EncryptedData).length < 16 := by omega
  simp only [openPayload, afterKeyExchange, ciphertextOf, macOf] at hopen
  simp only [handlePairVerifyRespond, hk, hd2, ne_eq, not_true_eq_false, if_false]
  rw [hopen]
  rfl

/-- The plaintext decodes and the signature does not validate: the error of
line 133, after the validation and nothing else. -/
theorem checkDecrypted_invalid (env : Env) (c : VerifyClientController) (t : List Event)
    (decrypted : Bytes) (tlv : Container)
    (hdec : env.NewTLV8ContainerFromReader decrypted = .ok tlv)
    (hsig : env.ValidateED25519Signature (env.PublicKeyForAccessory c.bridge)
      (verifyMaterial c.session (tlv.GetString env.TLVType_Username))
      (tlv.GetBytes env.TLVType_Ed25519Signature) = false) :
    checkDecrypted env c t decrypted =
      ⟨c, t ++ checkTrace env c decrypted tlv,
        .returned none (some (.newErrorf "Could not validate signature" []))⟩ := by
  simp only [checkDecrypted, hdec, hsig, if_true, checkTrace, List.append_assoc,
    List.cons_append, List.nil_append]

/-- The plaintext decodes and the signature validates: the handler goes on to
build the finish-request. -/
theorem checkDecrypted_valid (env : Env) (c : VerifyClientController) (t : List Event)
    (decrypted : Bytes) (tlv : Container)
    (hdec : env.NewTLV8ContainerFromReader decrypted = .ok tlv)
    (hsig : env.ValidateED25519Signature (env.PublicKeyForAccessory c.bridge)
      (verifyMaterial c.session (tlv.GetString env.TLVType_Username))
      (tlv.GetBytes env.TLVType_Ed25519Signature) = true) :
    checkDecrypted env c t decrypted =
      buildFinishRequest env c (t ++ checkTrace env c decrypted tlv) := by
  simp only [checkDecrypted, hdec, hsig, checkTrace, List.append_assoc,
    List.cons_append, List.nil_append]
  rfl

/-- The trace of `buildFinishRequest` extends the trace it is given by a
signing and, when the signing succeeds, a serialization and a seal. -/
theorem buildFinishRequest_trace (env : Env) (c : VerifyClientController) (t : List Event) :
    (buildFinishRequest env c t).trace =
        t ++ [Event.sign c.LTSK (signMaterial c.session c.username)] ∨
      ∃ plaintext tlv, (buildFinishRequest env c t).trace =
        t ++ [Event.sign c.LTSK (signMaterial c.session c.username), Event.bytesBuffer tlv,
          Event.encryptAndSeal c.session.encryptionKey.val "PV-Msg03" plaintext] := by
  unfold buildFinishRequest
  cases h : env.ED25519Signature c.LTSK (signMaterial c.session c.username) with
  | error e => left; simp [h]
  | ok sig => right; simp [h]

theorem validateCalls_append (t u : List Event) :
    validateCalls (t ++ u) = validateCalls t ++ validateCalls u := by
  induction t with
  | nil => rfl
  | cons e t ih => cases e <;> simp [validateCalls, ih]

theorem validateCalls_openTrace (env : Env) (c : VerifyClientController)
    (cont_in : Container) : validateCalls (openTrace env c cont_in) = [] := rfl

theorem validateCalls_checkTrace (env : Env) (c : VerifyClientController)
    (decrypted : Bytes) (tlv : Container) :
    validateCalls (checkTrace env c decrypted tlv) =
      [(env.PublicKeyForAccessory c.bridge,
        verifyMaterial c.session (tlv.GetString env.TLVType_Username),
        tlv.GetBytes env.TLVType_Ed25519Signature)] := rfl

/-- The material validated in round 1 is `B ++ u ++ A`, for `B` the 32-byte
public-key field of the message. -/
theorem verifyMaterial_afterKeyExchange (env : Env) (c : VerifyClientController)
    (cont_in : Container) (u : Bytes)
    (hk : (cont_in.GetBytes env.TLVType_PublicKey).length = 32) :
    verifyMaterial (afterKeyExchange env c cont_in).session u =
      cont_in.GetBytes env.TLVType_PublicKey ++ u ++ c.session.publicKey.val := by
  simp [verifyMaterial, afterKeyExchange, VerifySession.SetupEncryptionKey,
    VerifySession.GenerateSharedKeyWithOtherPublicKey, copyArr_val_of_length _ _ hk]

/-- The material signed in round 2 is `A ++ v ++ B`, for `B` the 32-byte
public-key field of the message. -/
theorem signMaterial_afterKeyExchange (env : Env) (c : VerifyClientController)
    (cont_in : Container) (v : Bytes)
    (hk : (cont_in.GetBytes env.TLVType_PublicKey).length = 32) :
    signMaterial (afterKeyExchange env c cont_in).session v =
      c.session.publicKey.val ++ v ++ cont_in.GetBytes env.TLVType_PublicKey := by
  simp [signMaterial, afterKeyExchange, VerifySession.SetupEncryptionKey,
    VerifySession.GenerateSharedKeyWithOtherPublicKey, copyArr_val_of_length _ _ hk]

/-- The signing succeeds: `buildFinishRequest` returns the finish-request. -/
theorem buildFinishRequest_signed (env : Env) (c : VerifyClientController) (t : List Event)
    (signature : Bytes)
    (hsign : env.ED25519Signature c.LTSK (signMaterial c.session c.username) = .ok signature) :
    buildFinishRequest env c t =
      ⟨c, t ++ [Event.sign c.LTSK (signMaterial c.session c.username),
          Event.bytesBuffer (finishPlain env c signature),
          Event.encryptAndSeal c.session.encryptionKey.val "PV-Msg03"
            (env.BytesBuffer (finishPlain env c signature))],
        .returned (some (finishRequest env c signature)) none⟩ := by
  simp only [buildFinishRequest, hsign, List.append_assoc, List.cons_append, List.nil_append]
  rfl

/-- The signing fails: `buildFinishRequest` returns the signer's error. -/
theorem buildFinishRequest_not_signed (env : Env) (c : VerifyClientController)
    (t : List Event) (e : Nat)
    (hsign : env.ED25519Signature c.LTSK (signMaterial c.session c.username) = .error e) :
    buildFinishRequest env c t =
      ⟨c, t ++ [Event.sign c.LTSK (signMaterial c.session c.username)],
        .returned none (some (.fromSign e))⟩ := by
  simp only [buildFinishRequest, hsign]

/-- A public-key field that is not 32 bytes long: the round-1 handler returns
the error of line 87, having done nothing. -/
theorem handlePairVerifyRespond_bad_key (env : Env) (c : VerifyClientController)
    (cont_in : Container) (hk : (cont_in.GetBytes env.TLVType_PublicKey).length ≠ 32) :
    handlePairVerifyRespond env c cont_in =
      ⟨c, [], .returned none (some (.newErrorf "Invalid server public key size %d"
        [(cont_in.GetBytes env.TLVType_PublicKey).length]))⟩ := by
  simp only [handlePairVerifyRespond, hk, ne_eq, not_false_eq_true, if_true]

/-- The round-2 handler returns `(nil, nil)` and leaves the controller as it is. -/
theorem handlePairVerifyFinishRespond_returns (env : Env) (c : VerifyClientController)
    (cont_in : Container) :
    (handlePairVerifyFinishRespond env c cont_in).controller = c ∧
      (handlePairVerifyFinishRespond env c cont_in).outcome = .returned none none := by
  simp only [handlePairVerifyFinishRespond]
  split <;> exact ⟨rfl, rfl⟩

/-- No round handler returns an error made by `hap.NewErrorf` with the format of
the unsupported-method error. -/
theorem handlePairVerifyRespond_not_method_error (env : Env) (c : VerifyClientController)
    (cont_in : Container) (out : Option Container) (args : List Nat) :
    (handlePairVerifyRespond env c cont_in).outcome ≠
      .returned out (some (.newErrorf "Cannot handle auth method %b" args)) := by
  unfold handlePairVerifyRespond checkDecrypted buildFinishRequest
  simp only []
  repeat' split
  all_goals simp

/-! ## The properties -/

/-- C1. A start-response (sequence `VerifyStartRespond`, method absent or 0,
32-byte public key, payload that opens and decodes) whose signature does not
validate against the accessory long-term public key of the identity store: `Handle`
returns the error "Could not validate signature" and no outgoing message, and
nothing has been signed or sealed. -/
theorem Handle_signature_invalid (env : Env) (c : VerifyClientController)
    (cont_in : Container) (decrypted : Bytes) (tlv : Container)
    (hm : cont_in.GetByte env.TLVType_Method = 0)
    (hs : cont_in.GetByte env.TLVType_SequenceNumber = VerifyStartRespond)
    (hk : (cont_in.GetBytes env.TLVType_PublicKey).length = 32)
    (hd : 16 ≤ (cont_in.GetBytes env.TLVType_EncryptedData).length)
    (hopen : openPayload env c cont_in = .ok decrypted)
    (hdec : env.NewTLV8ContainerFromReader decrypted = .ok tlv)
    (hsig : env.ValidateED25519Signature (env.PublicKeyForAccessory c.bridge)
      (verifyMaterial (afterKeyExchange env c cont_in).session
        (tlv.GetString env.TLVType_Username))
      (tlv.GetBytes env.TLVType_Ed25519Signature) = false) :
    (Handle env c cont_in).outcome =
        .returned none (some (.newErrorf "Could not validate signature" [])) ∧
      (Handle env c cont_in).trace.any Event.isSign = false ∧
      (Handle env c cont_in).trace.any Event.isSeal = false := by
  rw [Handle_startRespond env c cont_in hm hs,
    handlePairVerifyRespond_opened env c cont_in decrypted hk hd hopen,
    checkDecrypted_invalid env (afterKeyExchange env c cont_in) _ decrypted tlv hdec hsig]
  simp [openTrace, checkTrace, Event.isSign, Event.isSeal]

/-- Witness of C1: the start-response `badSigStart` on the concrete controller. -/
theorem Handle_signature_invalid_witness :
    (Handle Fixture.env Fixture.controller Fixture.badSigStart).outcome =
        .returned none (some (.newErrorf "Could not validate signature" [])) ∧
      (Handle Fixture.env Fixture.controller Fixture.badSigStart).trace.any Event.isSign
        = false ∧
      (Handle Fixture.env Fixture.controller Fixture.badSigStart).trace.any Event.isSeal
        = false :=
  Handle_signature_invalid Fixture.env Fixture.controller Fixture.badSigStart
    (Fixture.nested [97] [0]) ⟨[(1, [97]), (10, [0])]⟩
    (by decide) (by decide) (by decide) (by decide) rfl rfl (by decide)

/-- C2. For a start-response with a 32-byte public key `B` whose payload opens
and decodes to identifier `u`, the only signature validation made is on the
material `B ++ u ++ A` (`A` the controller's ephemeral public key), of length
`64 + len u`, under the key of the identity store. -/
theorem Handle_validates_material (env : Env) (c : VerifyClientController)
    (cont_in : Container) (decrypted : Bytes) (tlv : Container)
    (hm : cont_in.GetByte env.TLVType_Method = 0)
    (hs : cont_in.GetByte env.TLVType_SequenceNumber = VerifyStartRespond)
    (hk : (cont_in.GetBytes env.TLVType_PublicKey).length = 32)
    (hd : 16 ≤ (cont_in.GetBytes env.TLVType_EncryptedData).length)
    (hopen : openPayload env c cont_in = .ok decrypted)
    (hdec : env.NewTLV8ContainerFromReader decrypted = .ok tlv) :
    validateCalls (Handle env c cont_in).trace =
        [(env.PublicKeyForAccessory c.bridge,
          cont_in.GetBytes env.TLVType_PublicKey ++ tlv.GetString env.TLVType_Username ++
            c.session.publicKey.val,
          tlv.GetBytes env.TLVType_Ed25519Signature)] ∧
      (cont_in.GetBytes env.TLVType_PublicKey ++ tlv.GetString env.TLVType_Username ++
        c.session.publicKey.val).length = 64 + (tlv.GetString env.TLVType_Username).length := by
  constructor
  · rw [Handle_startRespond env c cont_in hm hs,
      handlePairVerifyRespond_opened env c cont_in decrypted hk hd hopen,
      ← verifyMaterial_afterKeyExchange env c cont_in _ hk]
    show validateCalls (checkDecrypted env (afterKeyExchange env c cont_in)
      (openTrace env c cont_in) decrypted).trace = _
    cases hsig : env.ValidateED25519Signature
        (env.PublicKeyForAccessory (afterKeyExchange env c cont_in).bridge)
        (verifyMaterial (afterKeyExchange env c cont_in).session
          (tlv.GetString env.TLVType_Username))
        (tlv.GetBytes env.TLVType_Ed25519Signature) with
    | false =>
      rw [checkDecrypted_invalid env _ _ decrypted tlv hdec hsig, validateCalls_append,
        validateCalls_openTrace, validateCalls_checkTrace]
      rfl
    | true =>
      rw [checkDecrypted_valid env _ _ decrypted tlv hdec hsig]
      rcases buildFinishRequest_trace env (afterKeyExchange env c cont_in)
        (openTrace env c cont_in ++ checkTrace env (afterKeyExchange env c cont_in)
          decrypted tlv) with h | ⟨p, w, h⟩
      · rw [h, validateCalls_append, validateCalls_append, validateCalls_openTrace,
          validateCalls_checkTrace]
        rfl
      · rw [h, validateCalls_append, validateCalls_append, validateCalls_openTrace,
          validateCalls_checkTrace]
        rfl
  · have hA := c.session.publicKey.property
    simp only [List.length_append, hk, hA]
    omega

/-- Witness of C2: the start-response `goodStart` on the concrete controller. -/
theorem Handle_validates_material_witness :
    validateCalls (Handle Fixture.env Fixture.controller Fixture.goodStart).trace =
        [([5, 1], Fixture.keyB ++ [97] ++ Fixture.keyA.val, [231])] ∧
      (Fixture.keyB ++ [97] ++ Fixture.keyA.val).length = 64 + 1 :=
  Handle_validates_material Fixture.env Fixture.controller Fixture.goodStart
    (Fixture.nested [97] (Fixture.accessorySig [97])) ⟨[(1, [97]), (10, [231])]⟩
    (by decide) (by decide) (by decide) (by decide) rfl rfl

/-- C3. The material the controller signs in round 2 is `A ++ v ++ B`, the
material it validated in round 1 is `B ++ u ++ A`: the first with the last 32
bytes of the second in front and its first 32 bytes at the end; and the two
differ whenever `A` differs from `B`. -/
theorem signMaterial_swaps_verifyMaterial (s : VerifySession) (u v : Bytes) :
    verifyMaterial s u = s.otherPublicKey.val ++ u ++ s.publicKey.val ∧
      signMaterial s v = s.publicKey.val ++ v ++ s.otherPublicKey.val ∧
      signMaterial s v =
        (verifyMaterial s u).drop (32 + u.length) ++ v ++ (verifyMaterial s u).take 32 ∧
      (s.publicKey ≠ s.otherPublicKey → signMaterial s v ≠ verifyMaterial s u) := by
  have hA := s.publicKey.property
  have hB := s.otherPublicKey.property
  have htake : (verifyMaterial s u).take 32 = s.otherPublicKey.val := by
    simp only [verifyMaterial, List.nil_append, List.append_assoc]
    rw [List.take_append_of_le_length (by omega), List.take_of_length_le (by omega)]
  have hdrop : (verifyMaterial s u).drop (32 + u.length) = s.publicKey.val := by
    simp only [verifyMaterial, List.nil_append]
    rw [List.drop_append_of_le_length (by simp [hB]), List.drop_eq_nil_of_le (by simp [hB]),
      List.nil_append]
  refine ⟨by simp [verifyMaterial], by simp [signMaterial], ?_, ?_⟩
  · rw [htake, hdrop]
    simp [signMaterial]
  · intro hne heq
    apply hne
    apply Subtype.ext
    have h := congrArg (List.take 32) heq
    rw [htake] at h
    rw [← h]
    simp only [signMaterial, List.nil_append, List.append_assoc]
    rw [List.take_append_of_le_length (by omega), List.take_of_length_le (by omega)]

/-- Witness of C3: the session of the concrete controller, whose keys differ. -/
theorem signMaterial_swaps_verifyMaterial_witness :
    Fixture.session.publicKey ≠ Fixture.session.otherPublicKey ∧
      signMaterial Fixture.session [99] ≠ verifyMaterial Fixture.session [97] :=
  ⟨by decide, (signMaterial_swaps_verifyMaterial Fixture.session [97] [99]).2.2.2 (by decide)⟩

/-- C4. For a start-response that passes every round-1 check, with `sig` the
client's signature, under its long-term private key, of `A ++ v ++ B`: `Handle`
returns no error and the container holding method `0`, sequence number
`VerifyFinishRequest` and, as encrypted data, `ciphertext ++ tag` with a 16-byte
tag, the AEAD seal under the session encryption key and the label "PV-Msg03"
(not the "PV-Msg02" of the open) of the serialized nested container holding
the client identifier and `sig`. -/
theorem Handle_finish_request (env : Env) (c : VerifyClientController)
    (cont_in : Container) (decrypted : Bytes) (tlv : Container) (sig : Bytes)
    (hm : cont_in.GetByte env.TLVType_Method = 0)
    (hs : cont_in.GetByte env.TLVType_SequenceNumber = VerifyStartRespond)
    (hk : (cont_in.GetBytes env.TLVType_PublicKey).length = 32)
    (hd : 16 ≤ (cont_in.GetBytes env.TLVType_EncryptedData).length)
    (hopen : openPayload env c cont_in = .ok decrypted)
    (hdec : env.NewTLV8ContainerFromReader decrypted = .ok tlv)
    (hsig : env.ValidateED25519Signature (env.PublicKeyForAccessory c.bridge)
      (verifyMaterial (afterKeyExchange env c cont_in).session
        (tlv.GetString env.TLVType_Username))
      (tlv.GetBytes env.TLVType_Ed25519Signature) = true)
    (hsign : env.ED25519Signature c.LTSK
      (c.session.publicKey.val ++ c.username ++ cont_in.GetBytes env.TLVType_PublicKey)
        = .ok sig)
    (htags : env.TLVType_Method ≠ env.TLVType_SequenceNumber ∧
      env.TLVType_Method ≠ env.TLVType_EncryptedData ∧
      env.TLVType_SequenceNumber ≠ env.TLVType_EncryptedData) :
    ∃ out ciphertext tag,
      (Handle env c cont_in).outcome = .returned (some out) none ∧
      (ciphertext, tag) =
        env.Chacha20EncryptAndPoly1305Seal
          (afterKeyExchange env c cont_in).session.encryptionKey.val "PV-Msg03"
          (env.BytesBuffer
            ⟨[(env.TLVType_Username, c.username), (env.TLVType_Ed25519Signature, sig)]⟩) [] ∧
      "PV-Msg03" ≠ "PV-Msg02" ∧
      tag.val.length = 16 ∧
      out.items = [(env.TLVType_Method, [0]),
        (env.TLVType_SequenceNumber, [VerifyFinishRequest]),
        (env.TLVType_EncryptedData, ciphertext ++ tag.val)] ∧
      out.GetByte env.TLVType_Method = 0 ∧
      out.GetByte env.TLVType_SequenceNumber = VerifyFinishRequest ∧
      out.GetBytes env.TLVType_EncryptedData = ciphertext ++ tag.val ∧
      Event.sign c.LTSK
        (c.session.publicKey.val ++ c.username ++ cont_in.GetBytes env.TLVType_PublicKey)
        ∈ (Handle env c cont_in).trace := by
  rw [← signMaterial_afterKeyExchange env c cont_in _ hk] at hsign ⊢
  have hb := buildFinishRequest_signed env (afterKeyExchange env c cont_in)
    (openTrace env c cont_in ++ checkTrace env (afterKeyExchange env c cont_in) decrypted tlv)
    sig hsign
  obtain ⟨h1, h2, h3⟩ := htags
  refine ⟨finishRequest env (afterKeyExchange env c cont_in) sig,
    (sealFinish env (afterKeyExchange env c cont_in) sig).1,
    (sealFinish env (afterKeyExchange env c cont_in) sig).2, ?_, rfl, by decide,
    (sealFinish env (afterKeyExchange env c cont_in) sig).2.property, rfl, ?_, ?_, ?_, ?_⟩
  · rw [Handle_startRespond env c cont_in hm hs,
      handlePairVerifyRespond_opened env c cont_in decrypted hk hd hopen,
      checkDecrypted_valid env _ _ decrypted tlv hdec hsig, hb]
  · simp [finishRequest, Container.GetByte, Container.GetBytes, getItems, h1, h2, h1.symm]
  · simp [finishRequest, Container.GetByte, Container.GetBytes, getItems, h1, h3, h1.symm]
  · simp [finishRequest, Container.GetBytes, getItems, h2, h3]
  · rw [Handle_startRespond env c cont_in hm hs,
      handlePairVerifyRespond_opened env c cont_in decrypted hk hd hopen,
      checkDecrypted_valid env _ _ decrypted tlv hdec hsig, hb]
    simp [afterKeyExchange]

/-- Witness of C4: the start-response `goodStart` on the concrete controller. -/
theorem Handle_finish_request_witness :
    ∃ out ciphertext tag,
      (Handle Fixture.env Fixture.controller Fixture.goodStart).outcome =
        .returned (some out) none ∧
      (ciphertext, tag) =
        Fixture.env.Chacha20EncryptAndPoly1305Seal
          (afterKeyExchange Fixture.env Fixture.controller Fixture.goodStart
            ).session.encryptionKey.val "PV-Msg03"
          (Fixture.env.BytesBuffer ⟨[(1, [99]), (10, [229])]⟩) [] ∧
      "PV-Msg03" ≠ "PV-Msg02" ∧
      tag.val.length = 16 ∧
      out.items = [(0, [0]), (6, [VerifyFinishRequest]), (5, ciphertext ++ tag.val)] ∧
      out.GetByte 0 = 0 ∧
      out.GetByte 6 = VerifyFinishRequest ∧
      out.GetBytes 5 = ciphertext ++ tag.val ∧
      Event.sign [1, 1] (Fixture.keyA.val ++ [99] ++ Fixture.keyB)
        ∈ (Handle Fixture.env Fixture.controller Fixture.goodStart).trace :=
  Handle_finish_request Fixture.env Fixture.controller Fixture.goodStart
    (Fixture.nested [97] (Fixture.accessorySig [97])) ⟨[(1, [97]), (10, [231])]⟩ [229]
    (by decide) (by decide) (by decide) (by decide) rfl rfl (by decide) rfl (by decide)

/-- C5. A start-response with a 32-byte public key and a payload of at least 16
bytes whose AEAD open under the session encryption key and the label
"PV-Msg02" fails: `Handle` returns the error of the open and no outgoing
message, right after the open; no plaintext is decoded or validated. -/
theorem Handle_open_fails (env : Env) (c : VerifyClientController)
    (cont_in : Container) (e : Nat)
    (hm : cont_in.GetByte env.TLVType_Method = 0)
    (hs : cont_in.GetByte env.TLVType_SequenceNumber = VerifyStartRespond)
    (hk : (cont_in.GetBytes env.TLVType_PublicKey).length = 32)
    (hd : 16 ≤ (cont_in.GetBytes env.TLVType_EncryptedData).length)
    (hopen : env.Chacha20DecryptAndPoly1305Verify
      (afterKeyExchange env c cont_in).session.encryptionKey.val "PV-Msg02"
      (ciphertextOf (cont_in.GetBytes env.TLVType_EncryptedData))
      (macOf (cont_in.GetBytes env.TLVType_EncryptedData)) [] = .error e) :
    Handle env c cont_in =
        ⟨afterKeyExchange env c cont_in,
          Event.handlePairVerifyRespond :: openTrace env c cont_in,
          .returned none (some (.fromDecrypt e))⟩ ∧
      (Handle env c cont_in).trace.any Event.isDecode = false ∧
      (Handle env c cont_in).trace.any Event.isValidate = false ∧
      (Handle env c cont_in).trace.any Event.isSign = false ∧
      (Handle env c cont_in).trace.any Event.isSeal = false := by
  rw [Handle_startRespond env c cont_in hm hs,
    handlePairVerifyRespond_not_opened env c cont_in e hk hd hopen]
  simp [openTrace, Event.isDecode, Event.isValidate, Event.isSign, Event.isSeal]

/-- Witness of C5: the start-response `badTagStart` on the concrete controller. -/
theorem Handle_open_fails_witness :
    Handle Fixture.env Fixture.controller Fixture.badTagStart =
        ⟨afterKeyExchange Fixture.env Fixture.controller Fixture.badTagStart,
          Event.handlePairVerifyRespond ::
            openTrace Fixture.env Fixture.controller Fixture.badTagStart,
          .returned none (some (.fromDecrypt 7))⟩ ∧
      (Handle Fixture.env Fixture.controller Fixture.badTagStart).trace.any Event.isDecode
        = false ∧
      (Handle Fixture.env Fixture.controller Fixture.badTagStart).trace.any Event.isValidate
        = false ∧
      (Handle Fixture.env Fixture.controller Fixture.badTagStart).trace.any Event.isSign
        = false ∧
      (Handle Fixture.env Fixture.controller Fixture.badTagStart).trace.any Event.isSeal
        = false :=
  Handle_open_fails Fixture.env Fixture.controller Fixture.badTagStart 7
    (by decide) (by decide) (by decide) (by decide) rfl

/-- C6. A start-response whose public-key field is absent or not 32 bytes long:
`Handle` returns the error "Invalid server public key size" and no outgoing
message, whatever the other fields hold, having called nothing but the round-1
handler; the controller, its session included, is unchanged. -/
theorem Handle_bad_key_size (env : Env) (c : VerifyClientController) (cont_in : Container)
    (hm : cont_in.GetByte env.TLVType_Method = 0)
    (hs : cont_in.GetByte env.TLVType_SequenceNumber = VerifyStartRespond)
    (hk : (cont_in.GetBytes env.TLVType_PublicKey).length ≠ 32) :
    Handle env c cont_in =
        ⟨c, [Event.handlePairVerifyRespond],
          .returned none (some (.newErrorf "Invalid server public key size %d"
            [(cont_in.GetBytes env.TLVType_PublicKey).length]))⟩ ∧
      (Handle env c cont_in).controller.session = c.session := by
  rw [Handle_startRespond env c cont_in hm hs, handlePairVerifyRespond_bad_key env c cont_in hk]
  exact ⟨rfl, rfl⟩

/-- Witness of C6: a start-response with a 31-byte key, otherwise valid. -/
theorem Handle_bad_key_size_witness :
    Handle Fixture.env Fixture.controller Fixture.shortKeyStart =
        ⟨Fixture.controller, [Event.handlePairVerifyRespond],
          .returned none (some (.newErrorf "Invalid server public key size %d"
            [(Fixture.shortKeyStart.GetBytes 3).length]))⟩ ∧
      (Handle Fixture.env Fixture.controller Fixture.shortKeyStart).controller.session =
        Fixture.controller.session :=
  Handle_bad_key_size Fixture.env Fixture.controller Fixture.shortKeyStart
    (by decide) (by decide) (by decide)

/-- C7. A container whose method byte is not 0: `Handle` returns the error
"Cannot handle auth method" and no outgoing message, having called nothing and
leaving the controller unchanged, whatever the sequence number. A container
whose method is absent or 0 never gets that error. -/
theorem Handle_method (env : Env) (c : VerifyClientController) (cont_in : Container) :
    (cont_in.GetByte env.TLVType_Method ≠ 0 →
      Handle env c cont_in =
        ⟨c, [], .returned none (some (.newErrorf "Cannot handle auth method %b"
          [cont_in.GetByte env.TLVType_Method]))⟩) ∧
    (cont_in.GetByte env.TLVType_Method = 0 →
      ∀ out args, (Handle env c cont_in).outcome ≠
        .returned out (some (.newErrorf "Cannot handle auth method %b" args))) := by
  constructor
  · intro hm
    simp only [Handle, hm, ne_eq, not_false_eq_true, if_true]
  · intro hm out args
    by_cases hs : cont_in.GetByte env.TLVType_SequenceNumber = VerifyStartRespond
    · rw [Handle_startRespond env c cont_in hm hs]
      exact handlePairVerifyRespond_not_method_error env c cont_in out args
    · by_cases hf : cont_in.GetByte env.TLVType_SequenceNumber = VerifyFinishRespond
      · rw [Handle_finishRespond env c cont_in hm hf]
        simp [(handlePairVerifyFinishRespond_returns env c cont_in).2]
      · simp [Handle, hm, hs, hf]

/-- Witness of C7: method 1 with sequence number `VerifyStartRespond` is
rejected; the start-response `goodStart`, without a method field, is not. -/
theorem Handle_method_witness :
    Handle Fixture.env Fixture.controller Fixture.method1 =
        ⟨Fixture.controller, [],
          .returned none (some (.newErrorf "Cannot handle auth method %b" [1]))⟩ ∧
      ∀ out args, (Handle Fixture.env Fixture.controller Fixture.goodStart).outcome ≠
        .returned out (some (.newErrorf "Cannot handle auth method %b" args)) :=
  ⟨(Handle_method Fixture.env Fixture.controller Fixture.method1).1 (by decide),
    (Handle_method Fixture.env Fixture.controller Fixture.goodStart).2 (by decide)⟩

/-- C8. A container with method absent or 0 whose sequence number is neither
`VerifyStartRespond` nor `VerifyFinishRespond`: `Handle` returns the error
"Cannot handle sequence number" and no outgoing message, having called neither
round handler and leaving the controller unchanged. The request values
`VerifyStartRequest` and `VerifyFinishRequest` and an absent sequence number
(read as 0) are such sequence numbers. -/
theorem Handle_unexpected_sequence (env : Env) (c : VerifyClientController)
    (cont_in : Container)
    (hm : cont_in.GetByte env.TLVType_Method = 0)
    (hs : cont_in.GetByte env.TLVType_SequenceNumber ≠ VerifyStartRespond)
    (hf : cont_in.GetByte env.TLVType_SequenceNumber ≠ VerifyFinishRespond) :
    Handle env c cont_in =
        ⟨c, [], .returned none (some (.newErrorf "Cannot handle sequence number %d"
          [cont_in.GetByte env.TLVType_SequenceNumber]))⟩ ∧
      (∀ n, n = VerifyStartRequest ∨ n = VerifyFinishRequest ∨ n = 0 →
        n ≠ VerifyStartRespond ∧ n ≠ VerifyFinishRespond) ∧
      (cont_in.GetBytes env.TLVType_SequenceNumber = [] →
        cont_in.GetByte env.TLVType_SequenceNumber = 0) := by
  refine ⟨by simp [Handle, hm, hs, hf], ?_, ?_⟩
  · intro n hn
    rcases hn with h | h | h <;> subst h <;> decide
  · intro h
    simp [Container.GetByte, h]

/-- Witness of C8: sequence number `VerifyFinishRequest` with method 0. -/
theorem Handle_unexpected_sequence_witness :
    Handle Fixture.env Fixture.controller Fixture.finishRequestEcho =
      ⟨Fixture.controller, [],
        .returned none (some (.newErrorf "Cannot handle sequence number %d" [3]))⟩ :=
  (Handle_unexpected_sequence Fixture.env Fixture.controller Fixture.finishRequestEcho
    (by decide) (by decide) (by decide)).1

/-- C9. Evaluation at the failing input: the finish-response carrying error code
2 makes `Handle` return `(nil, nil)`, that is success. This holds when the
status is read under tag 0 (the field is then not even looked at) and when it
is read under the tag that carries the code (the code is printed, nothing
more). -/
theorem Handle_rejected_finish_returns_no_error :
    (Handle Fixture.env Fixture.controller Fixture.rejectedFinish).outcome =
        .returned none none ∧
      Handle Fixture.envStatus7 Fixture.controller Fixture.rejectedFinish =
        ⟨Fixture.controller,
          [Event.handlePairVerifyFinishRespond, Event.println "Unexpected error %d" [2]],
          .returned none none⟩ := by
  constructor <;> decide

/-- C10, as stated, fails: on the freshly constructed controller, which has
processed no start-response, the finish-response `plainFinish` makes `Handle`
return `(nil, nil)`: no error at all. -/
theorem Handle_finish_before_start_no_error :
    Fixture.controller =
        NewVerifyClientController Fixture.env 5 [99] (Fixture.keyA, Fixture.secretA) ∧
      Fixture.plainFinish.GetByte Fixture.env.TLVType_SequenceNumber = VerifyFinishRespond ∧
      Handle Fixture.env Fixture.controller Fixture.plainFinish =
        ⟨Fixture.controller, [Event.handlePairVerifyFinishRespond], .returned none none⟩ ∧
      ¬ ∃ out e, (Handle Fixture.env Fixture.controller Fixture.plainFinish).outcome =
        .returned out (some e) := by
  refine ⟨rfl, by decide, by decide, ?_⟩
  rintro ⟨out, e, h⟩
  have h2 : (Handle Fixture.env Fixture.controller Fixture.plainFinish).outcome =
      .returned none none := by decide
  rw [h2] at h
  cases h

/-- C10, amended. On every controller, whether or not it has processed a
start-response, a finish-response with method absent or 0 leaves the controller,
its session included, unchanged and yields no outgoing message; when its status
byte is absent or 0, `Handle` returns no error, having called the round-2
handler and nothing else. -/
theorem Handle_finish_keeps_session (env : Env) (c : VerifyClientController)
    (cont_in : Container)
    (hm : cont_in.GetByte env.TLVType_Method = 0)
    (hs : cont_in.GetByte env.TLVType_SequenceNumber = VerifyFinishRespond) :
    (Handle env c cont_in).controller = c ∧
      (Handle env c cont_in).controller.session = c.session ∧
      (∃ err, (Handle env c cont_in).outcome = .returned none err) ∧
      (cont_in.GetByte env.TLVStatus_NoError = 0 →
        Handle env c cont_in =
          ⟨c, [Event.handlePairVerifyFinishRespond], .returned none none⟩) := by
  rw [Handle_finishRespond env c cont_in hm hs]
  have h := handlePairVerifyFinishRespond_returns env c cont_in
  refine ⟨h.1, by rw [h.1], ⟨none, h.2⟩, ?_⟩
  intro h0
  simp [handlePairVerifyFinishRespond, h0]

/-- Witness of C10: the finish-response `plainFinish` on the concrete controller. -/
theorem Handle_finish_keeps_session_witness :
    (Handle Fixture.env Fixture.controller Fixture.plainFinish).controller =
        Fixture.controller ∧
      Handle Fixture.env Fixture.controller Fixture.plainFinish =
        ⟨Fixture.controller, [Event.handlePairVerifyFinishRespond], .returned none none⟩ :=
  have h := Handle_finish_keeps_session Fixture.env Fixture.controller Fixture.plainFinish
    (by decide) (by decide)
  ⟨h.1, h.2.2.2 (by decide)⟩

/-! ## More basic facts -/

/-- The plaintext does not decode: the decoder's error, right after the decoding. -/
theorem checkDecrypted_not_decoded (env : Env) (c : VerifyClientController)
    (t : List Event) (decrypted : Bytes) (e : Nat)
    (hdec : env.NewTLV8ContainerFromReader decrypted = .error e) :
    checkDecrypted env c t decrypted =
      ⟨c, t ++ [Event.newTLV8ContainerFromReader decrypted],
        .returned none (some (.fromDecode e))⟩ := by
  simp only [checkDecrypted, hdec]

/-- A 32-byte key and fewer than 16 bytes of encrypted data: the slice
expression of line 103 panics, after the key exchange. -/
theorem handlePairVerifyRespond_short_data (env : Env) (c : VerifyClientController)
    (cont_in : Container)
    (hk : (cont_in.GetBytes env.TLVType_PublicKey).length = 32)
    (hd : (cont_in.GetBytes env.TLVType_EncryptedData).length < 16) :
    (handlePairVerifyRespond env c cont_in).controller = afterKeyExchange env c cont_in ∧
      (handlePairVerifyRespond env c cont_in).trace = (openTrace env c cont_in).take 7 ∧
      (handlePairVerifyRespond env c cont_in).outcome = .panicked := by
  have h : handlePairVerifyRespond env c cont_in =
      ⟨afterKeyExchange env c cont_in, (openTrace env c cont_in).take 7, .panicked⟩ := by
    simp only [handlePairVerifyRespond, hk, hd, ne_eq, not_true_eq_false, if_false, if_true]
    rfl
  rw [h]
  exact ⟨rfl, rfl, rfl⟩

/-- The five ways `handlePairVerifyRespond` ends once the key is 32 bytes long
and the payload at least 16: the open fails, the decoding fails, the signature
does not validate, the signing fails, or the finish-request is returned. -/
theorem handlePairVerifyRespond_cases (env : Env) (c : VerifyClientController)
    (cont_in : Container)
    (hk : (cont_in.GetBytes env.TLVType_PublicKey).length = 32)
    (hd : 16 ≤ (cont_in.GetBytes env.TLVType_EncryptedData).length) :
    (∃ e, openPayload env c cont_in = .error e ∧
      handlePairVerifyRespond env c cont_in =
        ⟨afterKeyExchange env c cont_in, openTrace env c cont_in,
          .returned none (some (.fromDecrypt e))⟩) ∨
    (∃ decrypted e, openPayload env c cont_in = .ok decrypted ∧
      env.NewTLV8ContainerFromReader decrypted = .error e ∧
      handlePairVerifyRespond env c cont_in =
        ⟨afterKeyExchange env c cont_in,
          openTrace env c cont_in ++ [Event.newTLV8ContainerFromReader decrypted],
          .returned none (some (.fromDecode e))⟩) ∨
    (∃ decrypted tlv, openPayload env c cont_in = .ok decrypted ∧
      env.NewTLV8ContainerFromReader decrypted = .ok tlv ∧
      env.ValidateED25519Signature (env.PublicKeyForAccessory c.bridge)
        (verifyMaterial (afterKeyExchange env c cont_in).session
          (tlv.GetString env.TLVType_Username))
        (tlv.GetBytes env.TLVType_Ed25519Signature) = false ∧
      handlePairVerifyRespond env c cont_in =
        ⟨afterKeyExchange env c cont_in,
          openTrace env c cont_in ++
            checkTrace env (afterKeyExchange env c cont_in) decrypted tlv,
          .returned none (some (.newErrorf "Could not validate signature" []))⟩) ∨
    (∃ decrypted tlv e, openPayload env c cont_in = .ok decrypted ∧
      env.NewTLV8ContainerFromReader decrypted = .ok tlv ∧
      env.ValidateED25519Signature (env.PublicKeyForAccessory c.bridge)
        (verifyMaterial (afterKeyExchange env c cont_in).session
          (tlv.GetString env.TLVType_Username))
        (tlv.GetBytes env.TLVType_Ed25519Signature) = true ∧
      env.ED25519Signature c.LTSK
        (signMaterial (afterKeyExchange env c cont_in).session c.username) = .error e ∧
      handlePairVerifyRespond env c cont_in =
        ⟨afterKeyExchange env c cont_in,
          (openTrace env c cont_in ++
            checkTrace env (afterKeyExchange env c cont_in) decrypted tlv) ++
            [Event.sign c.LTSK
              (signMaterial (afterKeyExchange env c cont_in).session c.username)],
          .returned none (some (.fromSign e))⟩) ∨
    (∃ decrypted tlv sig, openPayload env c cont_in = .ok decrypted ∧
      env.NewTLV8ContainerFromReader decrypted = .ok tlv ∧
      env.ValidateED25519Signature (env.PublicKeyForAccessory c.bridge)
        (verifyMaterial (afterKeyExchange env c cont_in).session
          (tlv.GetString env.TLVType_Username))
        (tlv.GetBytes env.TLVType_Ed25519Signature) = true ∧
      env.ED25519Signature c.LTSK
        (signMaterial (afterKeyExchange env c cont_in).session c.username) = .ok sig ∧
      handlePairVerifyRespond env c cont_in =
        ⟨afterKeyExchange env c cont_in,
          (openTrace env c cont_in ++
            checkTrace env (afterKeyExchange env c cont_in) decrypted tlv) ++
            finishTrace env (afterKeyExchange env c cont_in) sig,
          .returned (some (finishRequest env (afterKeyExchange env c cont_in) sig)) none⟩) := by
  cases hopen : openPayload env c cont_in with
  | error e =>
    exact Or.inl ⟨e, rfl, handlePairVerifyRespond_not_opened env c cont_in e hk hd hopen⟩
  | ok decrypted =>
    rw [handlePairVerifyRespond_opened env c cont_in decrypted hk hd hopen]
    cases hdec : env.NewTLV8ContainerFromReader decrypted with
    | error e =>
      exact Or.inr (Or.inl ⟨decrypted, e, rfl, hdec,
        checkDecrypted_not_decoded env _ _ decrypted e hdec⟩)
    | ok tlv =>
      cases hsig : env.ValidateED25519Signature
          (env.PublicKeyForAccessory (afterKeyExchange env c cont_in).bridge)
          (verifyMaterial (afterKeyExchange env c cont_in).session
            (tlv.GetString env.TLVType_Username))
          (tlv.GetBytes env.TLVType_Ed25519Signature) with
      | false =>
        exact Or.inr (Or.inr (Or.inl ⟨decrypted, tlv, rfl, hdec, hsig,
          checkDecrypted_invalid env _ _ decrypted tlv hdec hsig⟩))
      | true =>
        rw [checkDecrypted_valid env _ _ decrypted tlv hdec hsig]
        cases hsign : env.ED25519Signature (afterKeyExchange env c cont_in).LTSK
            (signMaterial (afterKeyExchange env c cont_in).session
              (afterKeyExchange env c cont_in).username) with
        | error e =>
          exact Or.inr (Or.inr (Or.inr (Or.inl ⟨decrypted, tlv, e, rfl, hdec, hsig, hsign,
            buildFinishRequest_not_signed env _ _ e hsign⟩)))
        | ok sig =>
          exact Or.inr (Or.inr (Or.inr (Or.inr ⟨decrypted, tlv, sig, rfl, hdec, hsig, hsign,
            buildFinishRequest_signed env _ _ sig hsign⟩)))

theorem aeadCalls_append (t u : List Event) :
    aeadCalls (t ++ u) = aeadCalls t ++ aeadCalls u := by
  induction t with
  | nil => rfl
  | cons e t ih => cases e <;> simp [aeadCalls, ih]

theorem openCalls_append (t u : List Event) :
    openCalls (t ++ u) = openCalls t ++ openCalls u := by
  induction t with
  | nil => rfl
  | cons e t ih => cases e <;> simp [openCalls, ih]

/-- With a 32-byte key the round-1 handler always leaves the controller with the
key exchange done, however it ends. -/
theorem handlePairVerifyRespond_controller (env : Env) (c : VerifyClientController)
    (cont_in : Container)
    (hk : (cont_in.GetBytes env.TLVType_PublicKey).length = 32) :
    (handlePairVerifyRespond env c cont_in).controller = afterKeyExchange env c cont_in := by
  by_cases hd : 16 ≤ (cont_in.GetBytes env.TLVType_EncryptedData).length
  · rcases handlePairVerifyRespond_cases env c cont_in hk hd with
      ⟨_, _, h⟩ | ⟨_, _, _, _, h⟩ | ⟨_, _, _, _, _, h⟩ | ⟨_, _, _, _, _, _, _, h⟩ |
      ⟨_, _, _, _, _, _, _, h⟩ <;> rw [h]
  · exact (handlePairVerifyRespond_short_data env c cont_in hk (by omega)).1

/-- No `Handle` call changes the identity fields or the ephemeral keypair. -/
theorem Handle_fixedPart (env : Env) (c : VerifyClientController) (cont_in : Container) :
    fixedPart (Handle env c cont_in).controller = fixedPart c := by
  by_cases hm : cont_in.GetByte env.TLVType_Method = 0
  · by_cases hs : cont_in.GetByte env.TLVType_SequenceNumber = VerifyStartRespond
    · rw [Handle_startRespond env c cont_in hm hs]
      by_cases hk : (cont_in.GetBytes env.TLVType_PublicKey).length = 32
      · show fixedPart (handlePairVerifyRespond env c cont_in).controller = _
        rw [handlePairVerifyRespond_controller env c cont_in hk]
        rfl
      · rw [handlePairVerifyRespond_bad_key env c cont_in hk]
    · by_cases hf : cont_in.GetByte env.TLVType_SequenceNumber = VerifyFinishRespond
      · rw [Handle_finishRespond env c cont_in hm hf]
        show fixedPart (handlePairVerifyFinishRespond env c cont_in).controller = _
        rw [(handlePairVerifyFinishRespond_returns env c cont_in).1]
      · simp [Handle, hm, hs, hf]
  · simp [Handle, hm]

/-- The round-1 handler reads nothing of the controller but the identity fields
and the ephemeral keypair. -/
theorem handlePairVerifyRespond_congr (env : Env) (c1 c2 : VerifyClientController)
    (cont_in : Container) (h : fixedPart c1 = fixedPart c2) :
    (handlePairVerifyRespond env c1 cont_in).outcome =
        (handlePairVerifyRespond env c2 cont_in).outcome ∧
      (handlePairVerifyRespond env c1 cont_in).trace =
        (handlePairVerifyRespond env c2 cont_in).trace := by
  obtain ⟨b1, ⟨o1, p1, s1, sh1, k1⟩, u1, pk1, sk1⟩ := c1
  obtain ⟨b2, ⟨o2, p2, s2, sh2, k2⟩, u2, pk2, sk2⟩ := c2
  simp only [fixedPart, Prod.mk.injEq] at h
  obtain ⟨rfl, rfl, rfl, rfl, rfl, rfl⟩ := h
  by_cases hk : (cont_in.GetBytes env.TLVType_PublicKey).length = 32
  · have e : handlePairVerifyRespond env ⟨b1, ⟨o1, p1, s1, sh1, k1⟩, u1, pk1, sk1⟩ cont_in =
        handlePairVerifyRespond env ⟨b1, ⟨o2, p1, s1, sh2, k2⟩, u1, pk1, sk1⟩ cont_in := by
      simp only [handlePairVerifyRespond, hk, ne_eq, not_true_eq_false, if_false]
      rfl
    rw [e]
    exact ⟨rfl, rfl⟩
  · rw [handlePairVerifyRespond_bad_key env _ cont_in hk,
      handlePairVerifyRespond_bad_key env _ cont_in hk]
    exact ⟨rfl, rfl⟩

/-- The round-2 handler reads nothing of the controller. -/
theorem handlePairVerifyFinishRespond_congr (env : Env) (c1 c2 : VerifyClientController)
    (cont_in : Container) :
    (handlePairVerifyFinishRespond env c1 cont_in).outcome =
        (handlePairVerifyFinishRespond env c2 cont_in).outcome ∧
      (handlePairVerifyFinishRespond env c1 cont_in).trace =
        (handlePairVerifyFinishRespond env c2 cont_in).trace := by
  simp only [handlePairVerifyFinishRespond]
  split <;> exact ⟨rfl, rfl⟩

/-- What `Handle` returns and the calls it makes depend on the controller only
through the identity fields and the ephemeral keypair. -/
theorem Handle_congr (env : Env) (c1 c2 : VerifyClientController) (cont_in : Container)
    (h : fixedPart c1 = fixedPart c2) :
    (Handle env c1 cont_in).outcome = (Handle env c2 cont_in).outcome ∧
      (Handle env c1 cont_in).trace = (Handle env c2 cont_in).trace := by
  by_cases hm : cont_in.GetByte env.TLVType_Method = 0
  · by_cases hs : cont_in.GetByte env.TLVType_SequenceNumber = VerifyStartRespond
    · rw [Handle_startRespond env c1 cont_in hm hs, Handle_startRespond env c2 cont_in hm hs]
      have hc := handlePairVerifyRespond_congr env c1 c2 cont_in h
      exact ⟨hc.1, by rw [hc.2]⟩
    · by_cases hf : cont_in.GetByte env.TLVType_SequenceNumber = VerifyFinishRespond
      · rw [Handle_finishRespond env c1 cont_in hm hf,
          Handle_finishRespond env c2 cont_in hm hf]
        have hc := handlePairVerifyFinishRespond_congr env c1 c2 cont_in
        exact ⟨hc.1, by rw [hc.2]⟩
      · simp [Handle, hm, hs, hf]
  · simp [Handle, hm]

theorem handleAll_fixedPart (env : Env) (c : VerifyClientController) (ms : List Container) :
    fixedPart (handleAll env c ms) = fixedPart c := by
  induction ms generalizing c with
  | nil => rfl
  | cons m ms ih => rw [handleAll, ih, Handle_fixedPart]

/-! ## The properties, continued -/

/-- C11, as stated, fails: a start-response is accepted after a failed call,
after an accepted finish-response, and after an accepted start-response; the
second accepted start-response replaces the session encryption key. -/
theorem Handle_accepts_after_terminal :
    ((∃ e, (Handle Fixture.env Fixture.controller Fixture.badSigStart).outcome =
        .returned none (some e)) ∧
      ∃ out, (Handle Fixture.env
        (Handle Fixture.env Fixture.controller Fixture.badSigStart).controller
        Fixture.goodStart).outcome = .returned (some out) none) ∧
    ((Handle Fixture.env Fixture.controller Fixture.plainFinish).outcome =
        .returned none none ∧
      ∃ out, (Handle Fixture.env
        (Handle Fixture.env Fixture.controller Fixture.plainFinish).controller
        Fixture.goodStart).outcome = .returned (some out) none) ∧
    ((∃ out, (Handle Fixture.env Fixture.controller Fixture.goodStart).outcome =
        .returned (some out) none) ∧
      (∃ out, (Handle Fixture.env
        (Handle Fixture.env Fixture.controller Fixture.goodStart).controller
        Fixture.goodStart2).outcome = .returned (some out) none) ∧
      (Handle Fixture.env
        (Handle Fixture.env Fixture.controller Fixture.goodStart).controller
        Fixture.goodStart2).controller.session.encryptionKey ≠
      (Handle Fixture.env Fixture.controller Fixture.goodStart
        ).controller.session.encryptionKey) :=
  ⟨⟨⟨_, rfl⟩, ⟨_, rfl⟩⟩, ⟨by decide, ⟨_, rfl⟩⟩, ⟨⟨_, rfl⟩, ⟨_, rfl⟩, by decide⟩⟩

/-- C11, amended. `Handle` keeps no record of earlier calls: after any sequence
of `Handle` calls on a controller, whatever their outcomes, a further call
returns what it would return on the controller as constructed and makes the
same calls. -/
theorem Handle_ignores_earlier_calls (env : Env) (c : VerifyClientController)
    (ms : List Container) (cont_in : Container) :
    (Handle env (handleAll env c ms) cont_in).outcome = (Handle env c cont_in).outcome ∧
      (Handle env (handleAll env c ms) cont_in).trace = (Handle env c cont_in).trace :=
  Handle_congr env (handleAll env c ms) c cont_in (handleAll_fixedPart env c ms)

/-- C12. Evaluation at the failing input: on a start-response with a 32-byte
public key and no encrypted-data field, or 15 bytes of it, `Handle` does not
return: the slice expression of line 103 panics, the session already changed. -/
theorem Handle_short_payload_panics :
    (Handle Fixture.env Fixture.controller Fixture.noDataStart).outcome = .panicked ∧
      (Handle Fixture.env Fixture.controller Fixture.shortDataStart).outcome = .panicked ∧
      (Handle Fixture.env Fixture.controller Fixture.noDataStart).controller.session ≠
        Fixture.controller.session := by
  refine ⟨by decide, by decide, by decide⟩

/-- C13. For a start-response with a 32-byte public key `B`: `Handle` leaves the
shared secret `ECDH(own secret key, B)` and the session encryption key
`HKDF(shared secret, "Pair-Verify-Encrypt-Salt", "Pair-Verify-Encrypt-Info")`,
the shared secret derived first; every AEAD open and seal of the call uses that
key, under the label "PV-Msg02" or "PV-Msg03"; and another run with the same
own secret key and the same `B` leaves the same key, whatever else differs. -/
theorem Handle_session_key (env : Env) (c : VerifyClientController) (cont_in : Container)
    (hm : cont_in.GetByte env.TLVType_Method = 0)
    (hs : cont_in.GetByte env.TLVType_SequenceNumber = VerifyStartRespond)
    (hk : (cont_in.GetBytes env.TLVType_PublicKey).length = 32) :
    (Handle env c cont_in).controller.session.sharedKey =
        env.curve25519 c.session.secretKey ⟨cont_in.GetBytes env.TLVType_PublicKey, hk⟩ ∧
      (Handle env c cont_in).controller.session.encryptionKey =
        env.hkdf
          (env.curve25519 c.session.secretKey ⟨cont_in.GetBytes env.TLVType_PublicKey, hk⟩)
          "Pair-Verify-Encrypt-Salt" "Pair-Verify-Encrypt-Info" ∧
      (Handle env c cont_in).trace.take 3 =
        [Event.handlePairVerifyRespond,
          Event.generateSharedKey (cont_in.GetBytes env.TLVType_PublicKey),
          Event.setupEncryptionKey "Pair-Verify-Encrypt-Salt" "Pair-Verify-Encrypt-Info"] ∧
      (∀ p ∈ aeadCalls (Handle env c cont_in).trace,
        p.1 = (Handle env c cont_in).controller.session.encryptionKey.val ∧
          (p.2 = "PV-Msg02" ∨ p.2 = "PV-Msg03")) ∧
      (∀ (c2 : VerifyClientController) (cont_in2 : Container),
        cont_in2.GetByte env.TLVType_Method = 0 →
        cont_in2.GetByte env.TLVType_SequenceNumber = VerifyStartRespond →
        c2.session.secretKey = c.session.secretKey →
        cont_in2.GetBytes env.TLVType_PublicKey = cont_in.GetBytes env.TLVType_PublicKey →
        (Handle env c2 cont_in2).controller.session.encryptionKey =
          (Handle env c cont_in).controller.session.encryptionKey) := by
  have hB : copyArr 32 (cont_in.GetBytes env.TLVType_PublicKey) =
      ⟨cont_in.GetBytes env.TLVType_PublicKey, hk⟩ :=
    Subtype.ext (copyArr_val_of_length 32 _ hk)
  have hctrl : (Handle env c cont_in).controller = afterKeyExchange env c cont_in := by
    rw [Handle_startRespond env c cont_in hm hs]
    exact handlePairVerifyRespond_controller env c cont_in hk
  have hkey : (afterKeyExchange env c cont_in).session.encryptionKey =
      env.hkdf
        (env.curve25519 c.session.secretKey ⟨cont_in.GetBytes env.TLVType_PublicKey, hk⟩)
        "Pair-Verify-Encrypt-Salt" "Pair-Verify-Encrypt-Info" := by
    simp only [afterKeyExchange, VerifySession.SetupEncryptionKey,
      VerifySession.GenerateSharedKeyWithOtherPublicKey, hB]
  refine ⟨?_, ?_, ?_, ?_, ?_⟩
  · rw [hctrl]
    simp only [afterKeyExchange, VerifySession.SetupEncryptionKey,
      VerifySession.GenerateSharedKeyWithOtherPublicKey, hB]
  · rw [hctrl, hkey]
  · rw [Handle_startRespond env c cont_in hm hs]
    by_cases hd : 16 ≤ (cont_in.GetBytes env.TLVType_EncryptedData).length
    · rcases handlePairVerifyRespond_cases env c cont_in hk hd with
        ⟨_, _, h⟩ | ⟨_, _, _, _, h⟩ | ⟨_, _, _, _, _, h⟩ | ⟨_, _, _, _, _, _, _, h⟩ |
        ⟨_, _, _, _, _, _, _, h⟩ <;> rw [h] <;>
        simp [openTrace, copyArr_val_of_length 32 _ hk]
    · rw [(handlePairVerifyRespond_short_data env c cont_in hk (by omega)).2.1]
      simp [openTrace, copyArr_val_of_length 32 _ hk]
  · rw [hctrl]
    rw [Handle_startRespond env c cont_in hm hs]
    intro p hp
    have hopenT : aeadCalls (openTrace env c cont_in) =
        [((afterKeyExchange env c cont_in).session.encryptionKey.val, "PV-Msg02")] := rfl
    by_cases hd : 16 ≤ (cont_in.GetBytes env.TLVType_EncryptedData).length
    · rcases handlePairVerifyRespond_cases env c cont_in hk hd with
        ⟨_, _, h⟩ | ⟨_, _, _, _, h⟩ | ⟨_, _, _, _, _, h⟩ | ⟨_, _, _, _, _, _, _, h⟩ |
        ⟨_, _, _, _, _, _, _, h⟩ <;> rw [h] at hp <;>
        simp only [aeadCalls, aeadCalls_append, hopenT, checkTrace, finishTrace,
          List.append_nil, List.cons_append, List.nil_append, List.mem_cons,
          List.mem_singleton, List.not_mem_nil, or_false] at hp
      · subst hp; exact ⟨rfl, Or.inl rfl⟩
      · subst hp; exact ⟨rfl, Or.inl rfl⟩
      · subst hp; exact ⟨rfl, Or.inl rfl⟩
      · subst hp; exact ⟨rfl, Or.inl rfl⟩
      · rcases hp with hp | hp <;> subst hp
        · exact ⟨rfl, Or.inl rfl⟩
        · exact ⟨rfl, Or.inr rfl⟩
    · rw [(handlePairVerifyRespond_short_data env c cont_in hk (by omega)).2.1] at hp
      simp [openTrace, aeadCalls] at hp
  · intro c2 cont_in2 hm2 hs2 hsec hpk
    have hk2 : (cont_in2.GetBytes env.TLVType_PublicKey).length = 32 := by rw [hpk]; exact hk
    have hctrl2 : (Handle env c2 cont_in2).controller = afterKeyExchange env c2 cont_in2 := by
      rw [Handle_startRespond env c2 cont_in2 hm2 hs2]
      exact handlePairVerifyRespond_controller env c2 cont_in2 hk2
    rw [hctrl, hctrl2]
    simp only [afterKeyExchange, VerifySession.SetupEncryptionKey,
      VerifySession.GenerateSharedKeyWithOtherPublicKey, hsec, hpk]

/-- Witness of C13: the start-response `goodStart` on the concrete controller. -/
theorem Handle_session_key_witness :
    (Handle Fixture.env Fixture.controller Fixture.goodStart).controller.session.encryptionKey =
      Fixture.env.hkdf
        (Fixture.env.curve25519 Fixture.controller.session.secretKey
          ⟨Fixture.goodStart.GetBytes 3, by decide⟩)
        "Pair-Verify-Encrypt-Salt" "Pair-Verify-Encrypt-Info" :=
  (Handle_session_key Fixture.env Fixture.controller Fixture.goodStart
    (by decide) (by decide) (by decide)).2.1

/-- C14, as stated, fails: with the signature missing from the nested container
the signature validation is attempted, on the empty signature, and the error
returned is the one of a failed validation; with the identifier missing and a
signature over `B ++ A` that validates, `Handle` returns a finish-request. -/
theorem Handle_empty_field_reaches_validation :
    validateCalls (Handle Fixture.env Fixture.controller Fixture.noSigStart).trace =
        [([5, 1], Fixture.keyB ++ [97] ++ Fixture.keyA.val, [])] ∧
      (Handle Fixture.env Fixture.controller Fixture.noSigStart).outcome =
        .returned none (some (.newErrorf "Could not validate signature" [])) ∧
      validateCalls (Handle Fixture.env Fixture.controller Fixture.noNameStart).trace =
        [([5, 1], Fixture.keyB ++ [] ++ Fixture.keyA.val, Fixture.accessorySig [])] ∧
      ∃ out, (Handle Fixture.env Fixture.controller Fixture.noNameStart).outcome =
        .returned (some out) none :=
  ⟨by decide, by decide, by decide, ⟨_, rfl⟩⟩

/-- C14, amended. For a start-response whose payload opens and decodes to a
nested container in which the identifier or the signature is missing or empty,
`Handle` makes no check of its own: it validates the signature as decoded over
`B ++ identifier ++ A`; when the validation fails it returns the error "Could
not validate signature" and no outgoing message, otherwise it goes on to the
signing of the finish-request. -/
theorem Handle_empty_field (env : Env) (c : VerifyClientController)
    (cont_in : Container) (decrypted : Bytes) (tlv : Container)
    (hm : cont_in.GetByte env.TLVType_Method = 0)
    (hs : cont_in.GetByte env.TLVType_SequenceNumber = VerifyStartRespond)
    (hk : (cont_in.GetBytes env.TLVType_PublicKey).length = 32)
    (hd : 16 ≤ (cont_in.GetBytes env.TLVType_EncryptedData).length)
    (hopen : openPayload env c cont_in = .ok decrypted)
    (hdec : env.NewTLV8ContainerFromReader decrypted = .ok tlv)
    (_hempty : tlv.GetString env.TLVType_Username = [] ∨
      tlv.GetBytes env.TLVType_Ed25519Signature = []) :
    Event.validateSignature (env.PublicKeyForAccessory c.bridge)
        (cont_in.GetBytes env.TLVType_PublicKey ++ tlv.GetString env.TLVType_Username ++
          c.session.publicKey.val)
        (tlv.GetBytes env.TLVType_Ed25519Signature) ∈ (Handle env c cont_in).trace ∧
      (env.ValidateED25519Signature (env.PublicKeyForAccessory c.bridge)
          (cont_in.GetBytes env.TLVType_PublicKey ++ tlv.GetString env.TLVType_Username ++
            c.session.publicKey.val)
          (tlv.GetBytes env.TLVType_Ed25519Signature) = false →
        (Handle env c cont_in).outcome =
          .returned none (some (.newErrorf "Could not validate signature" []))) ∧
      (env.ValidateED25519Signature (env.PublicKeyForAccessory c.bridge)
          (cont_in.GetBytes env.TLVType_PublicKey ++ tlv.GetString env.TLVType_Username ++
            c.session.publicKey.val)
          (tlv.GetBytes env.TLVType_Ed25519Signature) = true →
        Event.sign c.LTSK
          (c.session.publicKey.val ++ c.username ++ cont_in.GetBytes env.TLVType_PublicKey)
          ∈ (Handle env c cont_in).trace) := by
  rw [← verifyMaterial_afterKeyExchange env c cont_in _ hk,
    ← signMaterial_afterKeyExchange env c cont_in _ hk,
    Handle_startRespond env c cont_in hm hs,
    handlePairVerifyRespond_opened env c cont_in decrypted hk hd hopen]
  refine ⟨?_, ?_, ?_⟩
  · cases hsig : env.ValidateED25519Signature
        (env.PublicKeyForAccessory (afterKeyExchange env c cont_in).bridge)
        (verifyMaterial (afterKeyExchange env c cont_in).session
          (tlv.GetString env.TLVType_Username))
        (tlv.GetBytes env.TLVType_Ed25519Signature) with
    | false =>
      rw [checkDecrypted_invalid env _ _ decrypted tlv hdec hsig]
      simp [checkTrace, afterKeyExchange]
    | true =>
      rw [checkDecrypted_valid env _ _ decrypted tlv hdec hsig]
      rcases buildFinishRequest_trace env (afterKeyExchange env c cont_in)
        (openTrace env c cont_in ++ checkTrace env (afterKeyExchange env c cont_in)
          decrypted tlv) with h | ⟨p, w, h⟩ <;> rw [h] <;> simp [checkTrace, afterKeyExchange]
  · intro hsig
    rw [checkDecrypted_invalid env (afterKeyExchange env c cont_in) _ decrypted tlv hdec hsig]
  · intro hsig
    rw [checkDecrypted_valid env (afterKeyExchange env c cont_in) _ decrypted tlv hdec hsig]
    rcases buildFinishRequest_trace env (afterKeyExchange env c cont_in)
      (openTrace env c cont_in ++ checkTrace env (afterKeyExchange env c cont_in)
        decrypted tlv) with h | ⟨p, w, h⟩ <;> rw [h] <;> simp [afterKeyExchange]

/-- Witness of C14: the start-response `noSigStart`, whose nested container has
no signature. -/
theorem Handle_empty_field_witness :
    (Handle Fixture.env Fixture.controller Fixture.noSigStart).outcome =
      .returned none (some (.newErrorf "Could not validate signature" [])) :=
  (Handle_empty_field Fixture.env Fixture.controller Fixture.noSigStart
    (Fixture.encodeItems [(1, [97])]) ⟨[(1, [97])]⟩
    (by decide) (by decide) (by decide) (by decide) rfl rfl (Or.inr (by decide))).2.1
    (by decide)

/-- C15. A finish-response (sequence number `VerifyFinishRespond`, method absent
or 0) whose status byte is absent or 0: `Handle` returns no error and no
outgoing message, having called the round-2 handler and nothing else, and
leaves the controller as it was, the session encryption key included. -/
theorem Handle_finish_success (env : Env) (c : VerifyClientController) (cont_in : Container)
    (hm : cont_in.GetByte env.TLVType_Method = 0)
    (hs : cont_in.GetByte env.TLVType_SequenceNumber = VerifyFinishRespond)
    (herr : cont_in.GetByte env.TLVStatus_NoError = 0) :
    Handle env c cont_in =
        ⟨c, [Event.handlePairVerifyFinishRespond], .returned none none⟩ ∧
      (Handle env c cont_in).controller.session = c.session ∧
      (Handle env c cont_in).controller.session.encryptionKey = c.session.encryptionKey := by
  have h : Handle env c cont_in =
      ⟨c, [Event.handlePairVerifyFinishRespond], .returned none none⟩ := by
    rw [Handle_finishRespond env c cont_in hm hs]
    simp [handlePairVerifyFinishRespond, herr]
  rw [h]
  exact ⟨rfl, rfl, rfl⟩

/-- Witness of C15: the finish-response `okFinish` on the controller that has
processed the start-response `goodStart`. -/
theorem Handle_finish_success_witness :
    Handle Fixture.env (Handle Fixture.env Fixture.controller Fixture.goodStart).controller
        Fixture.okFinish =
      ⟨(Handle Fixture.env Fixture.controller Fixture.goodStart).controller,
        [Event.handlePairVerifyFinishRespond], .returned none none⟩ :=
  (Handle_finish_success Fixture.env
    (Handle Fixture.env Fixture.controller Fixture.goodStart).controller Fixture.okFinish
    (by decide) (by decide) (by decide)).1

/-- C16. `InitialKeyVerifyRequest` returns the serialization of the container
holding exactly method `0`, sequence number `VerifyStartRequest` and the 32-byte
ephemeral public key of the session; it leaves the controller unchanged, a
second call returns the same, and the bytes depend on the session only. -/
theorem InitialKeyVerifyRequest_bytes (env : Env) (c : VerifyClientController) :
    (InitialKeyVerifyRequest env c).2.2 =
        env.BytesBuffer ⟨[(env.TLVType_Method, [0]),
          (env.TLVType_SequenceNumber, [VerifyStartRequest]),
          (env.TLVType_PublicKey, c.session.publicKey.val)]⟩ ∧
      c.session.publicKey.val.length = 32 ∧
      (InitialKeyVerifyRequest env c).1 = c ∧
      InitialKeyVerifyRequest env (InitialKeyVerifyRequest env c).1 =
        InitialKeyVerifyRequest env c ∧
      (∀ c2 : VerifyClientController, c2.session = c.session →
        (InitialKeyVerifyRequest env c2).2.2 = (InitialKeyVerifyRequest env c).2.2) := by
  refine ⟨rfl, c.session.publicKey.property, rfl, rfl, ?_⟩
  intro c2 h
  simp only [InitialKeyVerifyRequest, h]

/-- Witness of C16: a controller for another bridge and user with the session of
the concrete controller sends the same start-request. -/
theorem InitialKeyVerifyRequest_bytes_witness :
    (InitialKeyVerifyRequest Fixture.env ⟨6, Fixture.controller.session, [100], [], []⟩).2.2 =
      (InitialKeyVerifyRequest Fixture.env Fixture.controller).2.2 :=
  (InitialKeyVerifyRequest_bytes Fixture.env Fixture.controller).2.2.2.2
    ⟨6, Fixture.controller.session, [100], [], []⟩ rfl

/-- C17. `Handle` never returns both an outgoing message and an error; and when
it returns an outgoing message, the incoming container is a start-response that
passed every round-1 check, there is no error, and the message is the
finish-request. -/
theorem Handle_message_or_error (env : Env) (c : VerifyClientController)
    (cont_in : Container) (out : Option Container) (err : Option Error)
    (h : (Handle env c cont_in).outcome = .returned out err) :
    (err ≠ none → out = none) ∧
      (out ≠ none →
        err = none ∧
        cont_in.GetByte env.TLVType_Method = 0 ∧
        cont_in.GetByte env.TLVType_SequenceNumber = VerifyStartRespond ∧
        (cont_in.GetBytes env.TLVType_PublicKey).length = 32 ∧
        16 ≤ (cont_in.GetBytes env.TLVType_EncryptedData).length ∧
        ∃ decrypted tlv sig,
          openPayload env c cont_in = .ok decrypted ∧
          env.NewTLV8ContainerFromReader decrypted = .ok tlv ∧
          env.ValidateED25519Signature (env.PublicKeyForAccessory c.bridge)
            (verifyMaterial (afterKeyExchange env c cont_in).session
              (tlv.GetString env.TLVType_Username))
            (tlv.GetBytes env.TLVType_Ed25519Signature) = true ∧
          env.ED25519Signature c.LTSK
            (signMaterial (afterKeyExchange env c cont_in).session c.username) = .ok sig ∧
          out = some (finishRequest env (afterKeyExchange env c cont_in) sig) ∧
          (finishRequest env (afterKeyExchange env c cont_in) sig).items.take 2 =
            [(env.TLVType_Method, [0]),
              (env.TLVType_SequenceNumber, [VerifyFinishRequest])]) := by
  by_cases hm : cont_in.GetByte env.TLVType_Method = 0
  · by_cases hs : cont_in.GetByte env.TLVType_SequenceNumber = VerifyStartRespond
    · rw [Handle_startRespond env c cont_in hm hs] at h
      by_cases hk : (cont_in.GetBytes env.TLVType_PublicKey).length = 32
      · by_cases hd : 16 ≤ (cont_in.GetBytes env.TLVType_EncryptedData).length
        · rcases handlePairVerifyRespond_cases env c cont_in hk hd with
            ⟨e, _, hr⟩ | ⟨d, e, _, _, hr⟩ | ⟨d, t, _, _, _, hr⟩ | ⟨d, t, e, _, _, _, _, hr⟩ |
            ⟨d, t, sig, h1, h2, h3, h4, hr⟩
          · rw [hr] at h
            simp only [Outcome.returned.injEq] at h
            obtain ⟨rfl, rfl⟩ := h
            simp
          · rw [hr] at h
            simp only [Outcome.returned.injEq] at h
            obtain ⟨rfl, rfl⟩ := h
            simp
          · rw [hr] at h
            simp only [Outcome.returned.injEq] at h
            obtain ⟨rfl, rfl⟩ := h
            simp
          · rw [hr] at h
            simp only [Outcome.returned.injEq] at h
            obtain ⟨rfl, rfl⟩ := h
            simp
          · rw [hr] at h
            simp only [Outcome.returned.injEq] at h
            obtain ⟨rfl, rfl⟩ := h
            refine ⟨by simp, fun _ => ⟨rfl, hm, hs, hk, hd, d, t, sig, h1, h2, h3, h4, rfl, rfl⟩⟩
        · have hp := (handlePairVerifyRespond_short_data env c cont_in hk (by omega)).2.2
          simp only at h
          rw [hp] at h
          cases h
      · rw [handlePairVerifyRespond_bad_key env c cont_in hk] at h
        simp only [Outcome.returned.injEq] at h
        obtain ⟨rfl, rfl⟩ := h
        simp
    · by_cases hf : cont_in.GetByte env.TLVType_SequenceNumber = VerifyFinishRespond
      · rw [Handle_finishRespond env c cont_in hm hf] at h
        simp only at h
        rw [(handlePairVerifyFinishRespond_returns env c cont_in).2] at h
        simp only [Outcome.returned.injEq] at h
        obtain ⟨rfl, rfl⟩ := h
        simp
      · simp only [Handle, hm, hs, hf, ne_eq, not_true_eq_false, if_false,
          Outcome.returned.injEq] at h
        obtain ⟨rfl, rfl⟩ := h
        simp
  · simp only [Handle, hm, ne_eq, not_false_eq_true, if_true, Outcome.returned.injEq] at h
    obtain ⟨rfl, rfl⟩ := h
    simp

/-- Witness of C17: the outcome of the start-response `goodStart`, a message
without an error. -/
theorem Handle_message_or_error_witness :
    (Handle Fixture.env Fixture.controller Fixture.goodStart).outcome =
        .returned (some (finishRequest Fixture.env
          (afterKeyExchange Fixture.env Fixture.controller Fixture.goodStart) [229])) none ∧
      ((none : Option Error) ≠ none →
        some (finishRequest Fixture.env
          (afterKeyExchange Fixture.env Fixture.controller Fixture.goodStart) [229]) = none) :=
  ⟨rfl, (Handle_message_or_error Fixture.env Fixture.controller Fixture.goodStart
    (some (finishRequest Fixture.env
      (afterKeyExchange Fixture.env Fixture.controller Fixture.goodStart) [229])) none rfl).1⟩

/-- C18. A start-response whose payload opens and whose plaintext does not
decode: `Handle` returns the decoder's error and no outgoing message, right after
the decoding; no identity-store lookup, no signature validation, no signing and
no seal is made. -/
theorem Handle_decode_fails (env : Env) (c : VerifyClientController)
    (cont_in : Container) (decrypted : Bytes) (e : Nat)
    (hm : cont_in.GetByte env.TLVType_Method = 0)
    (hs : cont_in.GetByte env.TLVType_SequenceNumber = VerifyStartRespond)
    (hk : (cont_in.GetBytes env.TLVType_PublicKey).length = 32)
    (hd : 16 ≤ (cont_in.GetBytes env.TLVType_EncryptedData).length)
    (hopen : openPayload env c cont_in = .ok decrypted)
    (hdec : env.NewTLV8ContainerFromReader decrypted = .error e) :
    Handle env c cont_in =
        ⟨afterKeyExchange env c cont_in,
          Event.handlePairVerifyRespond ::
            (openTrace env c cont_in ++ [Event.newTLV8ContainerFromReader decrypted]),
          .returned none (some (.fromDecode e))⟩ ∧
      (Handle env c cont_in).trace.any Event.isLookup = false ∧
      (Handle env c cont_in).trace.any Event.isValidate = false ∧
      (Handle env c cont_in).trace.any Event.isSign = false ∧
      (Handle env c cont_in).trace.any Event.isSeal = false := by
  rw [Handle_startRespond env c cont_in hm hs,
    handlePairVerifyRespond_opened env c cont_in decrypted hk hd hopen,
    checkDecrypted_not_decoded env _ _ decrypted e hdec]
  simp [openTrace, Event.isLookup, Event.isValidate, Event.isSign, Event.isSeal]

/-- Witness of C18: the start-response `undecodableStart`. -/
theorem Handle_decode_fails_witness :
    (Handle Fixture.env Fixture.controller Fixture.undecodableStart).outcome =
        .returned none (some (.fromDecode 1)) ∧
      (Handle Fixture.env Fixture.controller Fixture.undecodableStart).trace.any
        Event.isValidate = false :=
  have h := Handle_decode_fails Fixture.env Fixture.controller Fixture.undecodableStart [1] 1
    (by decide) (by decide) (by decide) (by decide) rfl rfl
  ⟨by rw [h.1], h.2.2.1⟩

/-- C19. For a start-response with a 32-byte public key and an encrypted payload
`d` of at least 16 bytes, the one AEAD open of the call receives a ciphertext
`m` of `len d - 16` bytes and a tag `t` of 16 bytes with `m ++ t = d`. -/
theorem Handle_splits_payload (env : Env) (c : VerifyClientController)
    (cont_in : Container)
    (hm : cont_in.GetByte env.TLVType_Method = 0)
    (hs : cont_in.GetByte env.TLVType_SequenceNumber = VerifyStartRespond)
    (hk : (cont_in.GetBytes env.TLVType_PublicKey).length = 32)
    (hd : 16 ≤ (cont_in.GetBytes env.TLVType_EncryptedData).length) :
    ∃ m t : Bytes,
      m ++ t = cont_in.GetBytes env.TLVType_EncryptedData ∧
      m.length = (cont_in.GetBytes env.TLVType_EncryptedData).length - 16 ∧
      t.length = 16 ∧
      openCalls (Handle env c cont_in).trace = [(m, t)] := by
  have hlen : (ciphertextOf (cont_in.GetBytes env.TLVType_EncryptedData)).length =
      (cont_in.GetBytes env.TLVType_EncryptedData).length - 16 := by
    simp only [ciphertextOf, List.length_take]
    omega
  have hmac : (macOf (cont_in.GetBytes env.TLVType_EncryptedData)).val =
      (cont_in.GetBytes env.TLVType_EncryptedData).drop
        ((cont_in.GetBytes env.TLVType_EncryptedData).length - 16) := by
    simp only [macOf, hlen]
    apply copyArr_val_of_length
    simp only [List.length_drop]
    omega
  have hopenT : openCalls (openTrace env c cont_in) =
      [(ciphertextOf (cont_in.GetBytes env.TLVType_EncryptedData),
        (macOf (cont_in.GetBytes env.TLVType_EncryptedData)).val)] := rfl
  refine ⟨ciphertextOf (cont_in.GetBytes env.TLVType_EncryptedData),
    (macOf (cont_in.GetBytes env.TLVType_EncryptedData)).val, ?_, hlen,
    (macOf (cont_in.GetBytes env.TLVType_EncryptedData)).property, ?_⟩
  · rw [hmac, ciphertextOf, List.take_append_drop]
  · rw [Handle_startRespond env c cont_in hm hs]
    rcases handlePairVerifyRespond_cases env c cont_in hk hd with
      ⟨_, _, h⟩ | ⟨_, _, _, _, h⟩ | ⟨_, _, _, _, _, h⟩ | ⟨_, _, _, _, _, _, _, h⟩ |
      ⟨_, _, _, _, _, _, _, h⟩ <;> rw [h] <;>
      simp [openCalls, openCalls_append, hopenT, checkTrace, finishTrace]

/-- Witness of C19: the start-response `goodStart`, whose payload is six bytes of
ciphertext and the tag. -/
theorem Handle_splits_payload_witness :
    ∃ m t : Bytes,
      m ++ t = Fixture.goodStart.GetBytes 5 ∧
      m.length = (Fixture.goodStart.GetBytes 5).length - 16 ∧
      t.length = 16 ∧
      openCalls (Handle Fixture.env Fixture.controller Fixture.goodStart).trace = [(m, t)] :=
  Handle_splits_payload Fixture.env Fixture.controller Fixture.goodStart
    (by decide) (by decide) (by decide) (by decide)

end Pair
